import Mathlib

/-!
Shallow embedding of the "No_more_2nd_screen" window-placement enforcer
(`src/core/monitor_info.py`, `src/core/whitelist.py`,
`src/core/window_monitor.py`) and proofs about its placement policy,
debounce ledger, drag deferral, and monitor-topology service.

Machine conventions: screen coordinates are `Int`, timestamps are `ℚ`
(seconds, as returned by `time.time()`), window handles are `Nat`.
Windows-API calls are modelled on their happy path (the Python code wraps
them in `try/except` blocks that claims never exercise), with the single
exception of process-name resolution, which the code itself models as an
`Option` (`get_process_name` returns `None` on failure).
-/

namespace NoSecond

/-- A screen rectangle `(left, top, right, bottom)`, as used for
`rc_monitor` / `rc_work` / window rects throughout `monitor_info.py`. -/
structure Rect where
  left : Int
  top : Int
  right : Int
  bottom : Int
deriving DecidableEq, Repr

/-- Width of a rectangle, `right - left` (cf. `MonitorInfo.__post_init__`). -/
def Rect.width (r : Rect) : Int := r.right - r.left

/-- Height of a rectangle, `bottom - top`. -/
def Rect.height (r : Rect) : Int := r.bottom - r.top

/-- `MonitorInfo` dataclass from `monitor_info.py` (the derived
`width`/`height` fields are recomputed from `rc_monitor`, exactly as
`__post_init__` does when they are passed as `right - left`). -/
structure MonitorInfo where
  handle : Int
  index : Nat
  is_primary : Bool
  rc_monitor : Rect
  rc_work : Rect
  device_name : String
deriving DecidableEq, Repr

/-- `monitor.width` (stored as `rcMonitor.right - rcMonitor.left`). -/
def MonitorInfo.width (m : MonitorInfo) : Int := m.rc_monitor.width

/-- `monitor.height` (stored as `rcMonitor.bottom - rcMonitor.top`). -/
def MonitorInfo.height (m : MonitorInfo) : Int := m.rc_monitor.height

/-- `is_point_in_rect` from `monitor_info.py`:
`left <= x <= right and top <= y <= bottom` (inclusive on all edges). -/
def is_point_in_rect (x y : Int) (r : Rect) : Bool :=
  decide (r.left ≤ x ∧ x ≤ r.right) && decide (r.top ≤ y ∧ y ≤ r.bottom)

/-- Per-window data the OS exposes for one `hwnd`: visibility, title,
class name, owning-process name (`none` models a `get_process_name`
failure: process exited / access denied), and the window rectangle. -/
structure WinData where
  visible : Bool
  title : String
  className : String
  processName : Option String
  rect : Rect

/-- The window environment for one tick: what the OS answers for each
window handle. -/
def WinEnv : Type := Nat → WinData

/-- X coordinate of a window's center: `(rect[0] + rect[2]) // 2`
(Python floor division). -/
def winCenterX (r : Rect) : Int := Int.fdiv (r.left + r.right) 2

/-- Y coordinate of a window's center: `(rect[1] + rect[3]) // 2`. -/
def winCenterY (r : Rect) : Int := Int.fdiv (r.top + r.bottom) 2

/-- `is_window_on_monitor` from `monitor_info.py`: the window's center
point is tested against the monitor's full rectangle. -/
def is_window_on_monitor (env : WinEnv) (hwnd : Nat) (m : MonitorInfo) : Bool :=
  let r := (env hwnd).rect
  is_point_in_rect (winCenterX r) (winCenterY r) m.rc_monitor

/-- `get_monitor_by_device_name`: first monitor of the snapshot whose
`device_name` matches. -/
def get_monitor_by_device_name (monitors : List MonitorInfo) (d : String) :
    Option MonitorInfo :=
  monitors.find? (fun m => m.device_name == d)

/-- `get_primary_monitor`: first monitor flagged primary, if any. -/
def get_primary_monitor (monitors : List MonitorInfo) : Option MonitorInfo :=
  monitors.find? (fun m => m.is_primary)

/-- `has_projectors`: more than one monitor present. -/
def has_projectors (monitors : List MonitorInfo) : Bool :=
  decide (monitors.length > 1)

/-- `DEFAULT_WHITELIST` from `whitelist.py`. -/
def DEFAULT_WHITELIST : List String :=
  ["POWERPNT.EXE", "OBS64.EXE", "OBS32.EXE"]

/-- Python's `str.upper()` on ASCII process names: uppercase every
character. -/
def pyUpper (s : String) : String := ⟨s.data.map Char.toUpper⟩

/-- Python's `str.strip()`: drop whitespace from both ends. -/
def pyStrip (s : String) : String :=
  ⟨((s.data.dropWhile Char.isWhitespace).reverse.dropWhile
      Char.isWhitespace).reverse⟩

/-- `Whitelist.is_whitelisted`: falsy (empty) names are rejected,
otherwise the uppercased, stripped name is looked up in the set. -/
def is_whitelisted (wl : List String) (process_name : String) : Bool :=
  if process_name = "" then false
  else decide (pyStrip (pyUpper process_name) ∈ wl)

/-- The mutable state of `WindowMonitor` (its `__init__` fields; the
statistics strings and counters are carried as plain fields, the
`_recently_moved` dict as an association list from handle to move
timestamp in seconds, the `_deferred_hwnds` set as a duplicate-free
list). -/
structure EngineState where
  protected_device_names : List String
  primary_device : Option String
  whitelist : List String
  enabled : Bool
  total_moves : Nat
  last_moved_process : String
  last_moved_title : String
  recently_moved : List (Nat × ℚ)
  was_dragging : Bool
  deferred_hwnds : List Nat

/-- `self._move_debounce_ms`: set to 500 in `__init__` and never
written again. -/
def move_debounce_ms : ℚ := 500

/-- Dict lookup in the `_recently_moved` ledger. -/
def lookupLedger (l : List (Nat × ℚ)) (hwnd : Nat) : Option ℚ :=
  (l.find? (fun p => p.1 == hwnd)).map (fun p => p.2)

/-- Dict store `self._recently_moved[hwnd] = ts`. -/
def setLedger (l : List (Nat × ℚ)) (hwnd : Nat) (ts : ℚ) : List (Nat × ℚ) :=
  (hwnd, ts) :: l.filter (fun p => p.1 ≠ hwnd)

/-- `WindowMonitor._is_recently_moved`: the window has a ledger entry and
`time.time() - ts < _move_debounce_ms / 1000`. -/
def is_recently_moved (s : EngineState) (now : ℚ) (hwnd : Nat) : Bool :=
  match lookupLedger s.recently_moved hwnd with
  | some ts => decide (now - ts < move_debounce_ms / 1000)
  | none => false

/-- `WindowMonitor._cleanup_old_entries`: keep ledger entries with
`ts >= now - _move_debounce_ms / 1000`. -/
def cleanup_old_entries (s : EngineState) (now : ℚ) : EngineState :=
  { s with recently_moved :=
      s.recently_moved.filter (fun p => decide (p.2 ≥ now - move_debounce_ms / 1000)) }

/-- `WindowMonitor.is_valid_window`: visible, non-empty title, class not
one of the shell classes. -/
def is_valid_window (env : WinEnv) (hwnd : Nat) : Bool :=
  let w := env hwnd
  w.visible && (!(w.title == "")) &&
    (!(w.className == "Shell_TrayWnd" || w.className == "Progman" ||
       w.className == "WorkerW"))

/-- `WindowMonitor.is_window_on_device`: resolve the device name to a
monitor of the current snapshot, then test the window's center. -/
def is_window_on_device (env : WinEnv) (monitors : List MonitorInfo)
    (hwnd : Nat) (device_name : String) : Bool :=
  match get_monitor_by_device_name monitors device_name with
  | some m => is_window_on_monitor env hwnd m
  | none => false

/-- `WindowMonitor._is_powerpoint_in_slideshow`: the process is
`POWERPNT.EXE` and the window class is the slideshow surface
`"screenClass"` (the editor surface is `"PPTFrameClass"`). -/
def is_powerpoint_in_slideshow (env : WinEnv) (hwnd : Nat)
    (process_name : String) : Bool :=
  if process_name == "POWERPNT.EXE" then (env hwnd).className == "screenClass"
  else false

/-- `WindowMonitor.should_move_window`, line for line: disabled engine →
false; unresolved process → fail-safe true; PowerPoint gets its own
branch that skips the whitelist; then whitelist, then the always-allowed
("primary") device, then the protected-device scan. The Python guard
`self.primary_device and ...` treats the empty string as falsy. -/
def should_move_window (s : EngineState) (monitors : List MonitorInfo)
    (env : WinEnv) (hwnd : Nat) : Bool × Option String :=
  if !s.enabled then (false, none)
  else
    match (env hwnd).processName with
    | none => (true, none)
    | some pname =>
      if pname == "POWERPNT.EXE" then
        if is_powerpoint_in_slideshow env hwnd pname then (false, some pname)
        else if s.protected_device_names.any
            (fun d => is_window_on_device env monitors hwnd d) then
          (true, some pname)
        else (false, some pname)
      else if is_whitelisted s.whitelist pname then (false, some pname)
      else if (match s.primary_device with
               | some d => (!(d == "")) && is_window_on_device env monitors hwnd d
               | none => false) then (false, some pname)
      else if s.protected_device_names.any
          (fun d => is_window_on_device env monitors hwnd d) then
        (true, some pname)
      else (false, some pname)

/-- Geometry computed by `WindowMonitor.move_to_primary_monitor`: clamp
the window's width/height to the primary work area, then place the
top-left at the work-area origin plus a 20-pixel padding. -/
def computeMoveTarget (pm : MonitorInfo) (r : Rect) : Rect :=
  let width := r.right - r.left
  let height := r.bottom - r.top
  let wr := pm.rc_work
  let width := if width > wr.right - wr.left then wr.right - wr.left else width
  let height := if height > wr.bottom - wr.top then wr.bottom - wr.top else height
  ⟨wr.left + 20, wr.top + 20, wr.left + 20 + width, wr.top + 20 + height⟩

/-- `WindowMonitor.move_to_primary_monitor`: fails (returns `none`) when
no primary monitor exists; otherwise repositions the window via
`SetWindowPos` and records the move timestamp in the debounce ledger.
The second component is the window's resulting rectangle. -/
def move_to_primary_monitor (s : EngineState) (monitors : List MonitorInfo)
    (env : WinEnv) (hwnd : Nat) (now : ℚ) : EngineState × Option Rect :=
  match get_primary_monitor monitors with
  | none => (s, none)
  | some pm =>
      ({ s with recently_moved := setLedger s.recently_moved hwnd now },
       some (computeMoveTarget pm (env hwnd).rect))

/-- Everything `check_and_enforce` samples from the outside on one tick:
the current time, the global drag state (`GetAsyncKeyState(VK_LBUTTON)`),
the `EnumWindows` handle list, the per-window OS answers, and the monitor
snapshot the topology service returns on this tick. -/
structure TickIn where
  now : ℚ
  dragging : Bool
  hwnds : List Nat
  env : WinEnv
  monitors : List MonitorInfo

/-- `self._deferred_hwnds.add(hwnd)` on the duplicate-free list model. -/
def addDeferred (l : List Nat) (hwnd : Nat) : List Nat :=
  if hwnd ∈ l then l else l.concat hwnd

/-- Stats bookkeeping done after each successful move (counter, last
moved title/process with the `or "Unknown"` fallback). -/
def recordMoveStats (s : EngineState) (env : WinEnv) (hwnd : Nat)
    (pname : Option String) : EngineState :=
  { s with total_moves := s.total_moves + 1,
           last_moved_title := (env hwnd).title,
           last_moved_process := pname.getD "Unknown" }

/-- The drag-end block of `check_and_enforce`: iterate over the deferred
handles; move those that are still valid windows and not debounced. Note
the placement policy is NOT re-evaluated here. Returns the updated state
and the list of handles actually moved. -/
def processDeferred (monitors : List MonitorInfo) (env : WinEnv) (now : ℚ) :
    EngineState → List Nat → EngineState × List Nat
  | s, [] => (s, [])
  | s, h :: rest =>
    if is_valid_window env h && !(is_recently_moved s now h) then
      match move_to_primary_monitor s monitors env h now with
      | (s', some _) =>
        let s'' := recordMoveStats s' env h ((env h).processName)
        let out := processDeferred monitors env now s'' rest
        (out.1, h :: out.2)
      | (s', none) => processDeferred monitors env now s' rest
    else processDeferred monitors env now s rest

/-- The `enum_callback` loop of `check_and_enforce` over the enumerated
windows: skip invalid and debounced windows, evaluate the placement
policy, defer while dragging, otherwise move and record stats. Returns
the updated state and the handles moved. -/
def enumPhase (monitors : List MonitorInfo) (env : WinEnv) (now : ℚ)
    (dragging : Bool) : EngineState → List Nat → EngineState × List Nat
  | s, [] => (s, [])
  | s, h :: rest =>
    if !(is_valid_window env h) then enumPhase monitors env now dragging s rest
    else if is_recently_moved s now h then
      enumPhase monitors env now dragging s rest
    else
      if (should_move_window s monitors env h).1 then
        if dragging then
          enumPhase monitors env now dragging
            { s with deferred_hwnds := addDeferred s.deferred_hwnds h } rest
        else
          match move_to_primary_monitor s monitors env h now with
          | (s', some _) =>
            let s'' := recordMoveStats s' env h
              (should_move_window s monitors env h).2
            let out := enumPhase monitors env now dragging s'' rest
            (out.1, h :: out.2)
          | (s', none) => enumPhase monitors env now dragging s' rest
      else enumPhase monitors env now dragging s rest

/-- `WindowMonitor.check_and_enforce`: fast paths for a disabled engine
and a projector-less topology, ledger cleanup, the drag-end deferred
block (guarded by `_was_dragging and not is_currently_dragging`, clearing
the deferred set first), the `_was_dragging` update, then the
`EnumWindows` pass. Returns the new state and the handles moved this
tick (`moved_count` is its length). -/
def check_and_enforce (s : EngineState) (t : TickIn) :
    EngineState × List Nat :=
  if !s.enabled then (s, [])
  else if !(has_projectors t.monitors) then (s, [])
  else
    let s1 := cleanup_old_entries s t.now
    let out1 :=
      if s1.was_dragging && !t.dragging then
        processDeferred t.monitors t.env t.now
          { s1 with deferred_hwnds := [] } s1.deferred_hwnds
      else (s1, [])
    let s3 := { out1.1 with was_dragging := t.dragging }
    let out2 := enumPhase t.monitors t.env t.now t.dragging s3 t.hwnds
    (out2.1, out1.2 ++ out2.2)

/-- A run of successive scheduler ticks; collects every handle moved in
any tick of the run. -/
def runTicks : EngineState → List TickIn → EngineState × List Nat
  | s, [] => (s, [])
  | s, t :: rest =>
    let out := check_and_enforce s t
    let tail := runTicks out.1 rest
    (tail.1, out.2 ++ tail.2)

/-! ## Monitor topology service (`monitor_info.py`) -/

/-- What `GetMonitorInfoW` reports for one monitor handle during
`EnumDisplayMonitors`: handle, `dwFlags` (bit 0 = `MONITORINFOF_PRIMARY`),
full and work rectangles, and the GDI device name `szDevice`. -/
structure RawMonitor where
  handle : Int
  dwFlags : Nat
  rcMonitor : Rect
  rcWork : Rect
  szDevice : String
deriving DecidableEq, Repr

/-- The display-side OS environment one enumeration sees: the
`EnumDisplayMonitors` results in callback order, and the `DeviceName`s of
the display devices attached to the desktop, in `EnumDisplayDevicesW`
order (dict keys, hence unique by construction on the OS side). -/
structure OsEnv where
  enumMonitors : List RawMonitor
  devices : List String
deriving DecidableEq, Repr

/-- `_monitor_enum_callback` applied to each raw monitor, with `index`
equal to the number of monitors collected so far. -/
def buildEnumMonitors : Nat → List RawMonitor → List MonitorInfo
  | _, [] => []
  | i, r :: rest =>
    { handle := r.handle, index := i,
      is_primary := decide (r.dwFlags &&& 1 ≠ 0),
      rc_monitor := r.rcMonitor, rc_work := r.rcWork,
      device_name := r.szDevice } :: buildEnumMonitors (i + 1) rest

/-- The reference-monitor selection loop inside `get_monitors` for a
device missed by the enumeration: first primary monitor if one exists
(the loop breaks there), otherwise the last monitor visited. -/
def refMonitor (monitors : List MonitorInfo) : Option MonitorInfo :=
  match monitors.find? (fun m => m.is_primary) with
  | some m => some m
  | none => monitors.getLast?

/-- The device-merge loop of `get_monitors`: every attached display
device whose name the monitor enumeration did not produce is appended as
a synthetic, non-primary monitor copying the reference monitor's
geometry, with `index = len(monitors)` at append time. -/
def addMissingDevices (enumNames : List String) :
    List MonitorInfo → List String → List MonitorInfo
  | monitors, [] => monitors
  | monitors, d :: rest =>
    if d ∈ enumNames then addMissingDevices enumNames monitors rest
    else
      match refMonitor monitors with
      | none => addMissingDevices enumNames monitors rest
      | some ref =>
        addMissingDevices enumNames
          (monitors.concat
            { handle := ref.handle, index := monitors.length,
              is_primary := false, rc_monitor := ref.rc_monitor,
              rc_work := ref.rc_work, device_name := d }) rest

/-- A full fresh enumeration in `get_monitors` (cache miss):
`EnumDisplayMonitors` results, then the merge with
`get_all_display_devices`, where `device_names_from_enum` collects the
non-empty device names of the enumerated monitors. -/
def freshEnumeration (os : OsEnv) : List MonitorInfo :=
  let monitors := buildEnumMonitors 0 os.enumMonitors
  let enumNames :=
    (monitors.filter (fun m => !(m.device_name == ""))).map
      (fun m => m.device_name)
  addMissingDevices enumNames monitors os.devices

/-- The module-level `_monitor_cache`: the cached snapshot (or `none`)
and its timestamp. -/
structure Cache where
  monitors : Option (List MonitorInfo)
  timestamp : ℚ
deriving DecidableEq, Repr

/-- `CACHE_DURATION` (seconds). -/
def CACHE_DURATION : ℚ := 5

/-- `get_monitors`: return the cached snapshot if one exists and is
younger than `CACHE_DURATION`, otherwise enumerate afresh and refill the
cache. -/
def get_monitors (os : OsEnv) (cache : Cache) (now : ℚ) :
    List MonitorInfo × Cache :=
  match cache.monitors with
  | some ms =>
    if now - cache.timestamp < CACHE_DURATION then (ms, cache)
    else
      let ms' := freshEnumeration os
      (ms', ⟨some ms', now⟩)
  | none =>
    let ms' := freshEnumeration os
    (ms', ⟨some ms', now⟩)

/-- One `ChangeDisplaySettingsExW` call issued by `set_primary_monitor`:
target device (`none` for the final commit call), requested
`dmPosition`, requested `dmPelsWidth`/`dmPelsHeight`, and whether
`CDS_SET_PRIMARY` was passed. -/
structure DisplayChangeRequest where
  device : Option String
  position : Option (Int × Int)
  size : Option (Int × Int)
  setPrimaryFlag : Bool
deriving DecidableEq, Repr

/-- The `for monitor in monitors` loop of `set_primary_monitor`: every
monitor other than the new primary is assigned position `(x_offset, 0)`,
where `x_offset` starts at the new primary's width and accumulates the
widths of the monitors already placed. -/
def positionOthers (device_name : String) :
    Int → List MonitorInfo → List DisplayChangeRequest
  | _, [] => []
  | x, m :: rest =>
    if m.device_name == device_name then positionOthers device_name x rest
    else
      ⟨some m.device_name, some (x, 0), some (m.width, m.height), false⟩ ::
        positionOthers device_name (x + m.width) rest

/-- `set_primary_monitor`: resolve the target and current primary via
the (cached) topology; issue a `CDS_SET_PRIMARY` request placing the
target at the origin; reposition every other monitor of the snapshot to
the right in enumeration order; issue the final commit call. The
`ChangeDisplaySettingsExW` calls are modelled on the happy path
(returning `DISP_CHANGE_SUCCESSFUL`), so the returned flag is `true`
exactly when both lookups succeed. Returns the success flag, the cache
as the function leaves it, and the request list. -/
def set_primary_monitor (os : OsEnv) (cache : Cache) (now : ℚ)
    (device_name : String) : Bool × Cache × List DisplayChangeRequest :=
  let g1 := get_monitors os cache now
  match get_monitor_by_device_name g1.1 device_name with
  | none => (false, g1.2, [])
  | some target =>
    let g2 := get_monitors os g1.2 now
    match get_primary_monitor g2.1 with
    | none => (false, g2.2, [])
    | some _ =>
      let req1 : DisplayChangeRequest :=
        ⟨some device_name, some (0, 0), some (target.width, target.height), true⟩
      let g3 := get_monitors os g2.2 now
      let reqs := positionOthers device_name target.width g3.1
      (true, g3.2, req1 :: reqs ++ [⟨none, none, none, false⟩])

/-- One `DISPLAYCONFIG_PATH_INFO` entry as far as `is_device_clone`
reads it (`sourceInfo.adapterId.LowPart`, `sourceInfo.id`,
`targetInfo.adapterId.LowPart`, `targetInfo.id`), plus the GDI device
name the path's source maps to. The code declares the
`DISPLAYCONFIG_DEVICE_INFO_GET_SOURCE_NAME` query constant for this
mapping but never issues it, so `sourceDeviceName` is consulted only by
the spec-side predicate below. -/
structure ConfigPath where
  srcAdapterLow : Nat
  srcId : Nat
  tgtAdapterLow : Nat
  tgtId : Nat
  sourceDeviceName : String
deriving DecidableEq, Repr, Inhabited

/-- `is_device_clone`: after the zero-count safety checks, the doubly
nested index loop returns `(True, None)` as soon as two distinct path
indices share `sourceInfo.adapterId.LowPart` and `sourceInfo.id`. The
queried `device_name` is never consulted. -/
def is_device_clone (paths : List ConfigPath) (modeCount : Nat)
    (device_name : String) : Bool × Option String :=
  if paths.length = 0 ∨ modeCount = 0 then (false, none)
  else
    ((List.range paths.length).any (fun i =>
      (List.range paths.length).any (fun j =>
        decide (i ≠ j) &&
        decide ((paths.getD i default).srcAdapterLow =
                (paths.getD j default).srcAdapterLow) &&
        decide ((paths.getD i default).srcId =
                (paths.getD j default).srcId))), none)

/-- Modelled from the spec: `detect_clone(device_id)` is true exactly
when the configuration path whose source maps to the given device shares
its adapter and source identifiers with another path targeting a
different output. This is the spec-side comparison predicate for the
refinement claim about `is_device_clone`. -/
def spec_detect_clone (paths : List ConfigPath) (device_name : String) :
    Bool :=
  (List.range paths.length).any (fun i =>
    decide ((paths.getD i default).sourceDeviceName = device_name) &&
    (List.range paths.length).any (fun j =>
      decide (i ≠ j) &&
      decide ((paths.getD i default).srcAdapterLow =
              (paths.getD j default).srcAdapterLow) &&
      decide ((paths.getD i default).srcId =
              (paths.getD j default).srcId) &&
      decide ((paths.getD i default).tgtAdapterLow ≠
                (paths.getD j default).tgtAdapterLow ∨
              (paths.getD i default).tgtId ≠ (paths.getD j default).tgtId)))

/-! ## Concrete fixtures used by witnesses and counterexamples -/

/-- A primary monitor `"D1"` at `(0,0)-(1920,1080)` with a 40-pixel
taskbar strip excluded from the work area. -/
def monD1 : MonitorInfo :=
  { handle := 1, index := 0, is_primary := true,
    rc_monitor := ⟨0, 0, 1920, 1080⟩, rc_work := ⟨0, 0, 1920, 1040⟩,
    device_name := "D1" }

/-- A protected (projector) monitor `"D2"` at `(1920,0)-(3840,1080)`. -/
def monD2 : MonitorInfo :=
  { handle := 2, index := 1, is_primary := false,
    rc_monitor := ⟨1920, 0, 3840, 1080⟩, rc_work := ⟨1920, 0, 3840, 1040⟩,
    device_name := "D2" }

/-- A freshly constructed engine protecting `"D2"` with the default
whitelist (the `WindowMonitor.__init__` defaults, restricted to the
two-monitor fixture topology). -/
def baseState : EngineState :=
  { protected_device_names := ["D2"], primary_device := none,
    whitelist := DEFAULT_WHITELIST, enabled := true, total_moves := 0,
    last_moved_process := "", last_moved_title := "",
    recently_moved := [], was_dragging := false, deferred_hwnds := [] }

/-- A window environment answering the same data for every handle. -/
def constEnv (w : WinData) : WinEnv := fun _ => w

/-! ## Helper lemmas -/

lemma find?_device_name_some {monitors : List MonitorInfo} {d : String}
    {m : MonitorInfo} (h : get_monitor_by_device_name monitors d = some m) :
    m ∈ monitors ∧ m.device_name = d := by
  unfold get_monitor_by_device_name at h
  refine ⟨List.mem_of_find?_eq_some h, ?_⟩
  have h2 := List.find?_some h
  simpa using h2

lemma protected_scan_eq_false {s : EngineState} {monitors : List MonitorInfo}
    {env : WinEnv} {hwnd : Nat}
    (hout : ∀ m ∈ monitors, m.device_name ∈ s.protected_device_names →
      is_point_in_rect (winCenterX (env hwnd).rect)
        (winCenterY (env hwnd).rect) m.rc_monitor = false) :
    s.protected_device_names.any
      (fun d => is_window_on_device env monitors hwnd d) = false := by
  rw [List.any_eq_false]
  intro d hd
  unfold is_window_on_device
  cases hfind : get_monitor_by_device_name monitors d with
  | none => simp
  | some m =>
    obtain ⟨hm, hdm⟩ := find?_device_name_some hfind
    simp only [is_window_on_monitor]
    simp [hout m hm (hdm ▸ hd)]

/-! ## C8: fail-safe on process-resolution failure -/

/-- C8: if the engine is enabled and resolving the owning-process name of
a window fails (process exited, access denied — `get_process_name`
returns `None`), `should_move_window` returns true for that window. -/
theorem C8_unresolved_process_failsafe (s : EngineState)
    (monitors : List MonitorInfo) (env : WinEnv) (hwnd : Nat)
    (henabled : s.enabled = true) (hproc : (env hwnd).processName = none) :
    should_move_window s monitors env hwnd = (true, none) := by
  simp [should_move_window, henabled, hproc]

/-- Witness for C8 at a concrete enabled engine and a window whose
process name does not resolve. -/
theorem C8_witness :
    should_move_window baseState [monD1, monD2]
      (constEnv ⟨true, "w", "C", none, ⟨0, 0, 10, 10⟩⟩) 5 = (true, none) :=
  C8_unresolved_process_failsafe _ _ _ _ rfl rfl

/-! ## C1: baseline safety for windows off every protected monitor -/

/-- C1 (amended): for every window whose owning process name resolves and
whose center point lies outside the bounds of every protected monitor in
the current topology, `should_move_window` returns false. (As literally
stated — "whatever the window's owning process is" — the claim fails:
when process resolution fails the fail-safe branch returns true before
any monitor test, see `C1_counterexample`.) -/
theorem C1_center_outside_protected (s : EngineState)
    (monitors : List MonitorInfo) (env : WinEnv) (hwnd : Nat) (pname : String)
    (hproc : (env hwnd).processName = some pname)
    (hout : ∀ m ∈ monitors, m.device_name ∈ s.protected_device_names →
      is_point_in_rect (winCenterX (env hwnd).rect)
        (winCenterY (env hwnd).rect) m.rc_monitor = false) :
    (should_move_window s monitors env hwnd).1 = false := by
  have hscan := protected_scan_eq_false hout
  cases henabled : s.enabled with
  | false => simp [should_move_window, henabled]
  | true =>
    simp only [should_move_window, henabled, hproc, Bool.not_true,
      Bool.false_eq_true, if_false]
    split
    · split
      · rfl
      · simp [hscan]
    · split
      · rfl
      · split
        · rfl
        · simp [hscan]

/-- C1 counterexample: an enabled engine, protected device `"D2"` mapped
to the monitor at `(1920,0)-(3840,1080)`, and window `1` centered at
`(200, 200)` — outside every protected monitor — whose process name does
not resolve: `should_move_window` returns true, refuting the claim's
"whatever the window's owning process is". -/
theorem C1_counterexample :
    (should_move_window baseState [monD1, monD2]
      (constEnv ⟨true, "w", "C", none, ⟨100, 100, 300, 300⟩⟩) 1).1 = true ∧
    ([monD1, monD2].all
      (fun m => !(m.device_name ∈ baseState.protected_device_names : Bool) ||
        !(is_point_in_rect (winCenterX ⟨100, 100, 300, 300⟩)
            (winCenterY ⟨100, 100, 300, 300⟩) m.rc_monitor))) = true := by
  constructor
  · decide
  · decide

/-- Witness for C1 applied at a concrete resolved-process window off the
protected monitor. -/
theorem C1_witness :
    (should_move_window baseState [monD1, monD2]
      (constEnv ⟨true, "w", "C", some "NOTEPAD.EXE", ⟨100, 100, 300, 300⟩⟩)
      1).1 = false :=
  C1_center_outside_protected _ _ _ _ "NOTEPAD.EXE" rfl (by decide)

/-! ## C3: PowerPoint slideshow exemption vs editor restriction -/

/-- C3: a window owned by `POWERPNT.EXE` whose class is the slideshow
surface (`"screenClass"`) is never moved, whatever the monitors, the
allow-list or the engine state; a `POWERPNT.EXE` window with the
ordinary editor class (`"PPTFrameClass"`) whose center lies on a
protected monitor is moved even though `POWERPNT.EXE` is in the
allow-list (the PowerPoint branch bypasses the whitelist test). -/
theorem C3_powerpoint_policy :
    (∀ (s : EngineState) (monitors : List MonitorInfo) (env : WinEnv)
       (hwnd : Nat),
       (env hwnd).processName = some "POWERPNT.EXE" →
       (env hwnd).className = "screenClass" →
       (should_move_window s monitors env hwnd).1 = false) ∧
    (∀ (s : EngineState) (monitors : List MonitorInfo) (env : WinEnv)
       (hwnd : Nat) (d : String) (m : MonitorInfo),
       s.enabled = true →
       (env hwnd).processName = some "POWERPNT.EXE" →
       (env hwnd).className = "PPTFrameClass" →
       "POWERPNT.EXE" ∈ s.whitelist →
       d ∈ s.protected_device_names →
       get_monitor_by_device_name monitors d = some m →
       is_window_on_monitor env hwnd m = true →
       (should_move_window s monitors env hwnd).1 = true) := by
  constructor
  · intro s monitors env hwnd hproc hclass
    cases henabled : s.enabled with
    | false => simp [should_move_window, henabled]
    | true =>
      simp [should_move_window, henabled, hproc,
        is_powerpoint_in_slideshow, hclass]
  · intro s monitors env hwnd d m henabled hproc hclass _hwl hd hfind hon
    have hscan : s.protected_device_names.any
        (fun d' => is_window_on_device env monitors hwnd d') = true := by
      rw [List.any_eq_true]
      exact ⟨d, hd, by simp [is_window_on_device, hfind, hon]⟩
    simp [should_move_window, henabled, hproc,
      is_powerpoint_in_slideshow, hclass, hscan]

/-- Witness for C3: both conjuncts applied at a concrete topology — the
slideshow window stays put, the editor window on the protected monitor
is flagged for relocation despite the default allow-list containing
`POWERPNT.EXE`. -/
theorem C3_witness :
    (should_move_window baseState [monD1, monD2]
      (constEnv ⟨true, "show", "screenClass", some "POWERPNT.EXE",
        ⟨1920, 0, 3840, 1080⟩⟩) 1).1 = false ∧
    (should_move_window baseState [monD1, monD2]
      (constEnv ⟨true, "edit", "PPTFrameClass", some "POWERPNT.EXE",
        ⟨2000, 100, 3000, 900⟩⟩) 1).1 = true :=
  ⟨C3_powerpoint_policy.1 _ _ _ _ rfl rfl,
   C3_powerpoint_policy.2 _ _ _ 1 "D2" monD2 rfl rfl rfl (by decide)
     (by decide) (by decide) (by decide)⟩

/-! ## C9: move geometry -/

/-- C9: a successful `move_to_primary_monitor` places the window's
top-left at the primary monitor's work-area origin plus the fixed
`(+20, +20)` padding; the width and height are unchanged whenever they
fit within the work area, and clamped to the work-area width/height
otherwise. -/
theorem C9_move_geometry (s : EngineState) (monitors : List MonitorInfo)
    (env : WinEnv) (hwnd : Nat) (now : ℚ) (pm : MonitorInfo)
    (hpm : get_primary_monitor monitors = some pm) :
    (move_to_primary_monitor s monitors env hwnd now).2 =
      some (computeMoveTarget pm (env hwnd).rect) ∧
    (computeMoveTarget pm (env hwnd).rect).left = pm.rc_work.left + 20 ∧
    (computeMoveTarget pm (env hwnd).rect).top = pm.rc_work.top + 20 ∧
    ((env hwnd).rect.width ≤ pm.rc_work.width →
      (computeMoveTarget pm (env hwnd).rect).width = (env hwnd).rect.width) ∧
    (pm.rc_work.width < (env hwnd).rect.width →
      (computeMoveTarget pm (env hwnd).rect).width = pm.rc_work.width) ∧
    ((env hwnd).rect.height ≤ pm.rc_work.height →
      (computeMoveTarget pm (env hwnd).rect).height =
        (env hwnd).rect.height) ∧
    (pm.rc_work.height < (env hwnd).rect.height →
      (computeMoveTarget pm (env hwnd).rect).height = pm.rc_work.height) := by
  refine ⟨by simp [move_to_primary_monitor, hpm], ?_, ?_, ?_, ?_, ?_, ?_⟩ <;>
    simp only [computeMoveTarget, Rect.width, Rect.height] <;>
    intros <;> split_ifs <;> omega

/-- Witness for C9 on the spec's scenario: primary work area
`(0,0)-(1920,1040)`, window `(2400,200)-(3360,880)` (fits) — the moved
rectangle is `(20,20)-(980,700)`. -/
theorem C9_witness :
    (move_to_primary_monitor baseState [monD1, monD2]
      (constEnv ⟨true, "w", "C", some "NOTEPAD.EXE", ⟨2400, 200, 3360, 880⟩⟩)
      1 10).2 =
      some (computeMoveTarget monD1 ⟨2400, 200, 3360, 880⟩) :=
  (C9_move_geometry _ _ _ 1 10 monD1 (by decide)).1

/-! ## C10: inclusive edges and the always-allowed-before-protected order -/

/-- C10 (amended): point-in-rectangle membership is inclusive on all
four edges, so a center point on the shared edge of two adjacent
monitors lies on both; and for a window whose process name resolves to
anything other than the presentation app, the always-allowed-monitor
test precedes the protected-monitor test, so such a boundary window
shared between the always-allowed monitor and a protected monitor is
not flagged for relocation. (The universal claim fails for
`POWERPNT.EXE` editor windows, which bypass the always-allowed test —
see `C10_counterexample`.) -/
theorem C10_boundary_inclusive :
    (∀ (x y : Int) (r : Rect),
       is_point_in_rect x y r = true ↔
         (r.left ≤ x ∧ x ≤ r.right ∧ r.top ≤ y ∧ y ≤ r.bottom)) ∧
    (∀ (x y : Int) (a p : MonitorInfo),
       a.rc_monitor.right = x → p.rc_monitor.left = x →
       a.rc_monitor.left ≤ x → x ≤ p.rc_monitor.right →
       a.rc_monitor.top ≤ y → y ≤ a.rc_monitor.bottom →
       p.rc_monitor.top ≤ y → y ≤ p.rc_monitor.bottom →
       is_point_in_rect x y a.rc_monitor = true ∧
         is_point_in_rect x y p.rc_monitor = true) ∧
    (∀ (s : EngineState) (monitors : List MonitorInfo) (env : WinEnv)
       (hwnd : Nat) (pname : String) (dA : String) (mA : MonitorInfo),
       (env hwnd).processName = some pname → pname ≠ "POWERPNT.EXE" →
       s.primary_device = some dA → dA ≠ "" →
       get_monitor_by_device_name monitors dA = some mA →
       is_window_on_monitor env hwnd mA = true →
       (should_move_window s monitors env hwnd).1 = false) := by
  refine ⟨?_, ?_, ?_⟩
  · intro x y r
    simp [is_point_in_rect, and_assoc]
  · intro x y a p h1 h2 h3 h4 h5 h6 h7 h8
    constructor <;> simp [is_point_in_rect] <;> omega
  · intro s monitors env hwnd pname dA mA hproc hppt hprim hne hfind hon
    cases henabled : s.enabled with
    | false => simp [should_move_window, henabled]
    | true =>
      have hdev : is_window_on_device env monitors hwnd dA = true := by
        simp [is_window_on_device, hfind, hon]
      simp only [should_move_window, henabled, hproc, Bool.not_true,
        Bool.false_eq_true, if_false]
      rw [if_neg (by simpa using hppt)]
      split
      · rfl
      · rw [if_pos (by simp [hprim, hdev, hne])]

/-- C10 counterexample: with always-allowed `"D1"` and protected `"D2"`
sharing the edge `x = 1920`, a `POWERPNT.EXE` editor window centered at
`(1920, 540)` — on both monitors, edges inclusive — is still flagged for
relocation, because the PowerPoint branch never runs the always-allowed
test. -/
theorem C10_counterexample :
    is_point_in_rect 1920 540 monD1.rc_monitor = true ∧
    is_point_in_rect 1920 540 monD2.rc_monitor = true ∧
    (should_move_window { baseState with primary_device := some "D1" }
      [monD1, monD2]
      (constEnv ⟨true, "edit", "PPTFrameClass", some "POWERPNT.EXE",
        ⟨960, 0, 2880, 1080⟩⟩) 1).1 = true := by
  refine ⟨by decide, by decide, by decide⟩

/-- Witness for C10: a resolved non-PowerPoint process centered exactly
on the shared edge of the always-allowed and the protected monitor is
not flagged for relocation. -/
theorem C10_witness :
    (should_move_window { baseState with primary_device := some "D1" }
      [monD1, monD2]
      (constEnv ⟨true, "w", "C", some "NOTEPAD.EXE",
        ⟨960, 0, 2880, 1080⟩⟩) 1).1 = false :=
  C10_boundary_inclusive.2.2 _ _ _ 1 "NOTEPAD.EXE" "D1" monD1 rfl
    (by decide) rfl (by decide) (by decide) (by decide)

/-! ## C6: clone detection -/

/-- C6 (amended): `is_device_clone` never reports a source (second
component is always `none`); its flag is true exactly when the active
path list is non-empty, the mode count is non-zero, and SOME two
distinct path indices share `sourceInfo.adapterId.LowPart` and
`sourceInfo.id` — independent of the queried device and with no check
that the two paths target different outputs. In particular the result
is identical for every queried device name. -/
theorem C6_clone_detection (paths : List ConfigPath) (modeCount : Nat)
    (d : String) :
    (is_device_clone paths modeCount d).2 = none ∧
    ((is_device_clone paths modeCount d).1 = true ↔
      (0 < modeCount ∧ ∃ i j, i < paths.length ∧ j < paths.length ∧
        i ≠ j ∧
        (paths.getD i default).srcAdapterLow =
          (paths.getD j default).srcAdapterLow ∧
        (paths.getD i default).srcId = (paths.getD j default).srcId)) ∧
    (∀ d', is_device_clone paths modeCount d = is_device_clone paths modeCount d') := by
  refine ⟨?_, ?_, fun d' => rfl⟩
  · unfold is_device_clone
    split <;> rfl
  · unfold is_device_clone
    split
    · rename_i hz
      simp only [Bool.false_eq_true, false_iff, not_and]
      intro hmc
      rcases hz with hz | hz
      · rintro ⟨i, j, hi, hj, _⟩
        omega
      · omega
    · rename_i hz
      push_neg at hz
      simp only [List.any_eq_true, List.mem_range, Bool.and_eq_true,
        decide_eq_true_eq]
      constructor
      · rintro ⟨i, hi, j, hj, ⟨hij, hadapt⟩, hsrc⟩
        exact ⟨Nat.pos_of_ne_zero hz.2, i, j, hi, hj, hij, hadapt, hsrc⟩
      · rintro ⟨_, i, j, hi, hj, hij, hadapt, hsrc⟩
        exact ⟨i, hi, j, hj, ⟨hij, hadapt⟩, hsrc⟩

/-- C6 counterexample: paths 0 and 1 are clones of each other (same
adapter 1, source 0, targets 10 and 11), while path 2 — the path of
device `"D3"` — shares its source with nobody. The spec predicate gives
`false` for `"D3"`, but `is_device_clone` answers `(true, none)` for it,
because the implementation never looks at which device was asked
about. -/
theorem C6_counterexample :
    is_device_clone
      [⟨1, 0, 1, 10, "D1"⟩, ⟨1, 0, 1, 11, "D2"⟩, ⟨2, 5, 2, 12, "D3"⟩]
      3 "D3" = (true, none) ∧
    spec_detect_clone
      [⟨1, 0, 1, 10, "D1"⟩, ⟨1, 0, 1, 11, "D2"⟩, ⟨2, 5, 2, 12, "D3"⟩]
      "D3" = false ∧
    spec_detect_clone
      [⟨1, 0, 1, 10, "D1"⟩, ⟨1, 0, 1, 11, "D2"⟩, ⟨2, 5, 2, 12, "D3"⟩]
      "D1" = true := by
  refine ⟨by decide, by decide, by decide⟩

/-- Witness for C6: the two-path clone topology makes the flag true for
an arbitrary queried device. -/
theorem C6_witness :
    (is_device_clone [⟨1, 0, 1, 10, "D1"⟩, ⟨1, 0, 1, 11, "D2"⟩] 2
      "UNRELATED").1 = true :=
  (C6_clone_detection _ 2 "UNRELATED").2.1.mpr
    ⟨by decide, 0, 1, by decide, by decide, by decide, by decide, by decide⟩

/-! ## C7: snapshot invariants of a fresh enumeration -/

lemma buildEnumMonitors_map_device (i : Nat) (raws : List RawMonitor) :
    (buildEnumMonitors i raws).map (fun m => m.device_name) =
      raws.map (fun r => r.szDevice) := by
  induction raws generalizing i with
  | nil => rfl
  | cons r rest ih => simp [buildEnumMonitors, ih]

lemma buildEnumMonitors_countP (i : Nat) (raws : List RawMonitor) :
    (buildEnumMonitors i raws).countP (fun m => m.is_primary) =
      raws.countP (fun r => decide (r.dwFlags &&& 1 ≠ 0)) := by
  induction raws generalizing i with
  | nil => rfl
  | cons r rest ih => simp [buildEnumMonitors, List.countP_cons, ih]

lemma refMonitor_isSome {monitors : List MonitorInfo} (h : monitors ≠ []) :
    ∃ ref, refMonitor monitors = some ref := by
  unfold refMonitor
  cases hf : monitors.find? (fun m => m.is_primary) with
  | some m => exact ⟨m, rfl⟩
  | none =>
    cases hl : monitors.getLast? with
    | some m => exact ⟨m, rfl⟩
    | none => exact absurd (List.getLast?_eq_none_iff.mp hl) h

lemma addMissingDevices_map (en : List String) (ds : List String) :
    ∀ (monitors : List MonitorInfo), monitors ≠ [] →
    (addMissingDevices en monitors ds).map (fun m => m.device_name) =
      monitors.map (fun m => m.device_name) ++
        ds.filter (fun d => !(decide (d ∈ en))) := by
  induction ds with
  | nil => intro monitors _; simp [addMissingDevices]
  | cons d rest ih =>
    intro monitors h
    by_cases hd : d ∈ en
    · simp [addMissingDevices, hd, ih monitors h, List.filter_cons]
    · obtain ⟨ref, href⟩ := refMonitor_isSome h
      simp only [addMissingDevices, if_neg hd, href]
      rw [ih _ (by simp)]
      simp [hd, List.concat_eq_append, List.filter_cons]

lemma addMissingDevices_countP (en : List String) (ds : List String) :
    ∀ (monitors : List MonitorInfo),
    (addMissingDevices en monitors ds).countP (fun m => m.is_primary) =
      monitors.countP (fun m => m.is_primary) := by
  induction ds with
  | nil => intro monitors; rfl
  | cons d rest ih =>
    intro monitors
    by_cases hd : d ∈ en
    · simp only [addMissingDevices, if_pos hd, ih monitors]
    · cases href : refMonitor monitors with
      | none => simp only [addMissingDevices, if_neg hd, href, ih monitors]
      | some ref =>
        simp only [addMissingDevices, if_neg hd, href, ih]
        simp [List.concat_eq_append, List.countP_append, List.countP_cons]

lemma filter_mem_perm {dev en : List String} (hdev : dev.Nodup)
    (hen : en.Nodup) (hsub : ∀ n ∈ en, n ∈ dev) :
    (dev.filter (fun d => decide (d ∈ en))).Perm en := by
  rw [List.perm_iff_count]
  intro a
  by_cases ha : a ∈ en
  · rw [List.count_filter (by simpa using ha),
      List.count_eq_one_of_mem hdev (hsub a ha),
      List.count_eq_one_of_mem hen ha]
  · have h1 : a ∉ dev.filter (fun d => decide (d ∈ en)) := by
      simp only [List.mem_filter, decide_eq_true_eq]
      rintro ⟨-, hmem⟩
      exact ha hmem
    rw [List.count_eq_zero_of_not_mem h1, List.count_eq_zero_of_not_mem ha]

/-- C7: a fresh `get_monitors` enumeration over a topology with `N`
display devices attached to the desktop — well-formed in that the
monitor enumeration reports pairwise-distinct non-empty device names,
each belonging to an attached device, with exactly one monitor flagged
primary, and attached device names are pairwise distinct — yields a
snapshot of exactly `N` `MonitorInfo` entries with pairwise-distinct
device names, exactly one of which has `is_primary = true`. -/
theorem C7_snapshot_invariants (os : OsEnv) (now : ℚ)
    (h1 : (os.enumMonitors.map (fun r => r.szDevice)).Nodup)
    (h2 : ∀ n ∈ os.enumMonitors.map (fun r => r.szDevice), n ≠ "")
    (h3 : ∀ n ∈ os.enumMonitors.map (fun r => r.szDevice), n ∈ os.devices)
    (h4 : os.devices.Nodup)
    (h5 : os.enumMonitors.countP (fun r => decide (r.dwFlags &&& 1 ≠ 0)) = 1) :
    ((get_monitors os ⟨none, 0⟩ now).1).length = os.devices.length ∧
    (((get_monitors os ⟨none, 0⟩ now).1).map
        (fun m => m.device_name)).Nodup ∧
    ((get_monitors os ⟨none, 0⟩ now).1).countP (fun m => m.is_primary) = 1 := by
  have hmap : (buildEnumMonitors 0 os.enumMonitors).map (fun m => m.device_name) =
      os.enumMonitors.map (fun r => r.szDevice) :=
    buildEnumMonitors_map_device 0 os.enumMonitors
  -- with all enumerated names non-empty, the name filter keeps everything
  have hfilt : (buildEnumMonitors 0 os.enumMonitors).filter
      (fun m => !(m.device_name == "")) = buildEnumMonitors 0 os.enumMonitors := by
    rw [List.filter_eq_self]
    intro m hm
    have hmem : m.device_name ∈
        (buildEnumMonitors 0 os.enumMonitors).map (fun m => m.device_name) :=
      List.mem_map_of_mem _ hm
    rw [hmap] at hmem
    simpa using h2 _ hmem
  have hne : buildEnumMonitors 0 os.enumMonitors ≠ [] := by
    intro hnil
    rw [hnil] at hmap
    have hraw : os.enumMonitors = [] := by
      have hmapnil := hmap.symm
      simpa using List.map_eq_nil_iff.mp hmapnil
    rw [hraw] at h5
    simp at h5
  have hkey : (get_monitors os ⟨none, 0⟩ now).1 =
      addMissingDevices (os.enumMonitors.map (fun r => r.szDevice))
        (buildEnumMonitors 0 os.enumMonitors) os.devices := by
    have hfe : (get_monitors os ⟨none, 0⟩ now).1 = freshEnumeration os := rfl
    rw [hfe]
    simp only [freshEnumeration]
    rw [hfilt, hmap]
  rw [hkey]
  have hmap2 := addMissingDevices_map (os.enumMonitors.map (fun r => r.szDevice))
    os.devices (buildEnumMonitors 0 os.enumMonitors) hne
  refine ⟨?_, ?_, ?_⟩
  · -- length
    have hlen := congrArg List.length hmap2
    simp only [List.length_map, List.length_append] at hlen
    have hperm := filter_mem_perm h4 h1 h3
    have hlen2 := hperm.length_eq
    have hsplit := List.length_eq_countP_add_countP
      (p := fun d => decide (d ∈ os.enumMonitors.map (fun r => r.szDevice)))
      os.devices
    rw [List.countP_eq_length_filter, List.countP_eq_length_filter] at hsplit
    have hnoteq : os.devices.filter
        (fun a => !(decide (a ∈ os.enumMonitors.map (fun r => r.szDevice)))) =
        os.devices.filter (fun a =>
          decide ¬(decide (a ∈ os.enumMonitors.map (fun r => r.szDevice)) = true)) := by
      apply List.filter_congr
      intro a _
      cases hdec : decide (a ∈ os.enumMonitors.map (fun r => r.szDevice)) <;>
        simp [hdec]
    rw [hnoteq] at hlen
    have hblen : (buildEnumMonitors 0 os.enumMonitors).length =
        (os.enumMonitors.map (fun r => r.szDevice)).length := by
      have hc := congrArg List.length hmap
      simpa using hc
    simp only [List.length_map] at hlen hlen2 hsplit hblen
    omega
  · -- nodup names
    rw [hmap2, hmap, List.nodup_append]
    refine ⟨h1, h4.filter _, ?_⟩
    intro a ha hb
    have hnotin := List.of_mem_filter hb
    simp only [Bool.not_eq_true', decide_eq_false_iff_not] at hnotin
    exact hnotin ha
  · -- exactly one primary
    rw [addMissingDevices_countP, buildEnumMonitors_countP]
    exact h5

/-- Witness for C7: two enumerated monitors (`D1` primary, `D2`), a
third attached device `D3` only visible to the device enumeration — the
snapshot has 3 entries, distinct names, one primary. -/
theorem C7_witness :
    ((get_monitors
        ⟨[⟨1, 1, ⟨0, 0, 1920, 1080⟩, ⟨0, 0, 1920, 1040⟩, "D1"⟩,
          ⟨2, 0, ⟨1920, 0, 3840, 1080⟩, ⟨1920, 0, 3840, 1040⟩, "D2"⟩],
         ["D1", "D2", "D3"]⟩ ⟨none, 0⟩ 1).1).length = 3 ∧
    (((get_monitors
        ⟨[⟨1, 1, ⟨0, 0, 1920, 1080⟩, ⟨0, 0, 1920, 1040⟩, "D1"⟩,
          ⟨2, 0, ⟨1920, 0, 3840, 1080⟩, ⟨1920, 0, 3840, 1040⟩, "D2"⟩],
         ["D1", "D2", "D3"]⟩ ⟨none, 0⟩ 1).1).map
        (fun m => m.device_name)).Nodup ∧
    ((get_monitors
        ⟨[⟨1, 1, ⟨0, 0, 1920, 1080⟩, ⟨0, 0, 1920, 1040⟩, "D1"⟩,
          ⟨2, 0, ⟨1920, 0, 3840, 1080⟩, ⟨1920, 0, 3840, 1040⟩, "D2"⟩],
         ["D1", "D2", "D3"]⟩ ⟨none, 0⟩ 1).1).countP
      (fun m => m.is_primary) = 1 :=
  C7_snapshot_invariants _ 1 (by decide) (by decide) (by decide) (by decide)
    (by decide)

/-! ## C5: set_primary_monitor -/

lemma get_monitors_idem (os : OsEnv) (c : Cache) (now : ℚ) :
    get_monitors os (get_monitors os c now).2 now = get_monitors os c now := by
  cases hc : c.monitors with
  | none =>
    simp only [get_monitors, hc]
    norm_num [CACHE_DURATION]
  | some ms =>
    by_cases ht : now - c.timestamp < CACHE_DURATION
    · simp only [get_monitors, hc, if_pos ht]
    · simp only [get_monitors, hc, if_neg ht]
      norm_num [CACHE_DURATION]

lemma positionOthers_getElem? (d : String) (x : Int) (ms : List MonitorInfo)
    (i : Nat) :
    (positionOthers d x ms)[i]? =
      ((ms.filter (fun m => !(m.device_name == d)))[i]?).map (fun m =>
        (⟨some m.device_name,
          some (x + (((ms.filter (fun m => !(m.device_name == d))).take i).map
            MonitorInfo.width).sum, 0),
          some (m.width, m.height), false⟩ : DisplayChangeRequest)) := by
  induction ms generalizing x i with
  | nil => simp [positionOthers]
  | cons m rest ih =>
    cases hm : (m.device_name == d) with
    | true => simp [positionOthers, hm, List.filter_cons, ih]
    | false =>
      cases i with
      | zero => simp [positionOthers, hm, List.filter_cons]
      | succ i =>
        simp only [positionOthers, hm, Bool.false_eq_true, if_false,
          List.filter_cons, Bool.not_false, if_true,
          List.getElem?_cons_succ, ih (x + m.width) i,
          List.take_succ_cons, List.map_cons, List.sum_cons]
        cases hg : (rest.filter (fun m => !(m.device_name == d)))[i]? with
        | none => simp [hg]
        | some mm => simp [hg, add_assoc]

/-- C5 (amended): when both topology lookups succeed,
`set_primary_monitor` reports success, issues a `CDS_SET_PRIMARY` change
placing the target device at the origin `(0,0)`, then repositions every
other device of the enumeration-ordered snapshot at `(x_i, 0)` where
`x_i` is the target's width plus the widths of the other devices already
placed, followed by the final commit call. The topology cache, however,
is NOT invalidated: the function leaves the cache exactly as the last
`get_monitors` call left it, and when the cached snapshot is within its
TTL a later `get_monitors` still returns the pre-call snapshot instead
of a fresh enumeration. -/
theorem C5_set_primary (os : OsEnv) (cache : Cache) (now : ℚ) (d : String)
    (target : MonitorInfo)
    (hT : get_monitor_by_device_name (get_monitors os cache now).1 d =
      some target)
    (hP : (get_primary_monitor (get_monitors os cache now).1).isSome = true) :
    (set_primary_monitor os cache now d).1 = true ∧
    (set_primary_monitor os cache now d).2.2 =
      (⟨some d, some (0, 0), some (target.width, target.height), true⟩ :
        DisplayChangeRequest) ::
      positionOthers d target.width (get_monitors os cache now).1 ++
      [⟨none, none, none, false⟩] ∧
    (∀ i : Nat,
      (positionOthers d target.width (get_monitors os cache now).1)[i]? =
        ((((get_monitors os cache now).1).filter
            (fun m => !(m.device_name == d)))[i]?).map (fun m =>
          (⟨some m.device_name,
            some (target.width +
              ((((get_monitors os cache now).1.filter
                  (fun m => !(m.device_name == d))).take i).map
                MonitorInfo.width).sum, 0),
            some (m.width, m.height), false⟩ : DisplayChangeRequest))) ∧
    (set_primary_monitor os cache now d).2.1 = (get_monitors os cache now).2 ∧
    (∀ ms0, cache.monitors = some ms0 →
      now - cache.timestamp < CACHE_DURATION →
      (set_primary_monitor os cache now d).2.1 = cache ∧
      ∀ now', now' - cache.timestamp < CACHE_DURATION →
        (get_monitors os (set_primary_monitor os cache now d).2.1 now').1 =
          ms0) := by
  obtain ⟨pm, hpm⟩ := Option.isSome_iff_exists.mp hP
  have hmain : set_primary_monitor os cache now d =
      (true, (get_monitors os cache now).2,
        (⟨some d, some (0, 0), some (target.width, target.height), true⟩ :
          DisplayChangeRequest) ::
        positionOthers d target.width (get_monitors os cache now).1 ++
        [⟨none, none, none, false⟩]) := by
    simp only [set_primary_monitor, get_monitors_idem, hT, hpm]
  refine ⟨by rw [hmain], by rw [hmain], ?_, by rw [hmain], ?_⟩
  · intro i
    exact positionOthers_getElem? d target.width _ i
  · intro ms0 hms0 httl
    have hcache : (get_monitors os cache now).2 = cache := by
      simp [get_monitors, hms0, if_pos httl]
    refine ⟨by rw [hmain, hcache], ?_⟩
    intro now' httl'
    rw [hmain, hcache]
    simp [get_monitors, hms0, if_pos httl']

/-- C5 counterexample: a valid cached two-monitor snapshot, an OS
environment whose fresh enumeration has three monitors.
`set_primary_monitor` succeeds yet leaves the cache untouched, so the
next `get_monitors` (still within the 5-second TTL) returns the stale
pre-call snapshot and not the fresh enumeration — the claimed cache
invalidation does not happen. -/
theorem C5_counterexample :
    (set_primary_monitor
      ⟨[⟨1, 1, ⟨0, 0, 1920, 1080⟩, ⟨0, 0, 1920, 1040⟩, "D1"⟩,
        ⟨2, 0, ⟨1920, 0, 3840, 1080⟩, ⟨1920, 0, 3840, 1040⟩, "D2"⟩],
       ["D1", "D2", "D3"]⟩ ⟨some [monD1, monD2], 0⟩ 1 "D2").1 = true ∧
    (set_primary_monitor
      ⟨[⟨1, 1, ⟨0, 0, 1920, 1080⟩, ⟨0, 0, 1920, 1040⟩, "D1"⟩,
        ⟨2, 0, ⟨1920, 0, 3840, 1080⟩, ⟨1920, 0, 3840, 1040⟩, "D2"⟩],
       ["D1", "D2", "D3"]⟩ ⟨some [monD1, monD2], 0⟩ 1 "D2").2.1 =
      ⟨some [monD1, monD2], 0⟩ ∧
    (get_monitors
      ⟨[⟨1, 1, ⟨0, 0, 1920, 1080⟩, ⟨0, 0, 1920, 1040⟩, "D1"⟩,
        ⟨2, 0, ⟨1920, 0, 3840, 1080⟩, ⟨1920, 0, 3840, 1040⟩, "D2"⟩],
       ["D1", "D2", "D3"]⟩
      (set_primary_monitor
        ⟨[⟨1, 1, ⟨0, 0, 1920, 1080⟩, ⟨0, 0, 1920, 1040⟩, "D1"⟩,
          ⟨2, 0, ⟨1920, 0, 3840, 1080⟩, ⟨1920, 0, 3840, 1040⟩, "D2"⟩],
         ["D1", "D2", "D3"]⟩ ⟨some [monD1, monD2], 0⟩ 1 "D2").2.1 2).1 =
      [monD1, monD2] ∧
    freshEnumeration
      ⟨[⟨1, 1, ⟨0, 0, 1920, 1080⟩, ⟨0, 0, 1920, 1040⟩, "D1"⟩,
        ⟨2, 0, ⟨1920, 0, 3840, 1080⟩, ⟨1920, 0, 3840, 1040⟩, "D2"⟩],
       ["D1", "D2", "D3"]⟩ ≠ [monD1, monD2] := by
  refine ⟨?_, ?_, ?_, by decide⟩ <;>
    norm_num [set_primary_monitor, get_monitors, CACHE_DURATION,
      get_monitor_by_device_name, get_primary_monitor, List.find?, monD1,
      monD2, show (("D1" : String) == "D2") = false from rfl,
      show (("D2" : String) == "D2") = true from rfl]

/-- Witness for C5 applied at the stale-cache fixture. -/
theorem C5_witness :
    (set_primary_monitor
      ⟨[⟨1, 1, ⟨0, 0, 1920, 1080⟩, ⟨0, 0, 1920, 1040⟩, "D1"⟩,
        ⟨2, 0, ⟨1920, 0, 3840, 1080⟩, ⟨1920, 0, 3840, 1040⟩, "D2"⟩],
       ["D1", "D2", "D3"]⟩ ⟨some [monD1, monD2], 0⟩ 1 "D2").1 = true :=
  (C5_set_primary _ _ 1 "D2" monD2
    (by norm_num [get_monitors, CACHE_DURATION, get_monitor_by_device_name,
      List.find?, monD1, monD2,
      show (("D1" : String) == "D2") = false from rfl,
      show (("D2" : String) == "D2") = true from rfl])
    (by norm_num [get_monitors, CACHE_DURATION, get_primary_monitor,
      List.find?, monD1, monD2])).1

/-! ## Engine lemmas: ledger, policy fields, per-phase invariants -/

lemma move_debounce_pos : (0 : ℚ) < move_debounce_ms / 1000 := by
  norm_num [move_debounce_ms]

lemma lookupLedger_setLedger_self (l : List (Nat × ℚ)) (h : Nat) (ts : ℚ) :
    lookupLedger (setLedger l h ts) h = some ts := by
  simp [lookupLedger, setLedger, List.find?]

lemma lookupLedger_setLedger_ne (l : List (Nat × ℚ)) {g h : Nat} (ts : ℚ)
    (hne : g ≠ h) :
    lookupLedger (setLedger l g ts) h = lookupLedger l h := by
  simp only [lookupLedger, setLedger]
  rw [List.find?_cons_of_neg _ (by simpa using fun hc => hne hc)]
  induction l with
  | nil => simp
  | cons p rest ih =>
    by_cases hp : p.1 = g
    · rw [List.filter_cons_of_neg (by simpa using hp)]
      rw [List.find?_cons_of_neg _ (by simp [hp, hne])]
      exact ih
    · rw [List.filter_cons_of_pos (by simpa using hp)]
      by_cases hph : p.1 = h
      · rw [List.find?_cons_of_pos _ (by simpa using hph),
          List.find?_cons_of_pos _ (by simpa using hph)]
      · rw [List.find?_cons_of_neg _ (by simpa using hph),
          List.find?_cons_of_neg _ (by simpa using hph)]
        exact ih

lemma lookupLedger_filter_of_keep {l : List (Nat × ℚ)} {h : Nat} {v : ℚ}
    {P : Nat × ℚ → Bool} (hl : lookupLedger l h = some v)
    (hP : P (h, v) = true) :
    lookupLedger (l.filter P) h = some v := by
  induction l with
  | nil => simp [lookupLedger] at hl
  | cons p rest ih =>
    by_cases hph : p.1 = h
    · have hpv : p = (h, v) := by
        have hv := hl
        simp only [lookupLedger] at hv
        rw [List.find?_cons_of_pos _ (by simpa using hph)] at hv
        simp at hv
        cases p with
        | mk a b => simp_all
      subst hpv
      rw [List.filter_cons_of_pos hP]
      simp [lookupLedger, List.find?]
    · have hl' : lookupLedger rest h = some v := by
        have := hl
        simp only [lookupLedger] at this ⊢
        rwa [List.find?_cons_of_neg _ (by simpa using hph)] at this
      by_cases hPp : P p = true
      · rw [List.filter_cons_of_pos hPp]
        simp only [lookupLedger]
        rw [List.find?_cons_of_neg _ (by simpa using hph)]
        exact ih hl'
      · rw [List.filter_cons_of_neg (by simpa using hPp)]
        exact ih hl'

lemma lookupLedger_eq_none_of_not_key {l : List (Nat × ℚ)} {h : Nat}
    (hk : h ∉ l.map Prod.fst) : lookupLedger l h = none := by
  induction l with
  | nil => rfl
  | cons p rest ih =>
    simp only [List.map_cons, List.mem_cons, not_or] at hk
    simp only [lookupLedger]
    rw [List.find?_cons_of_neg _ (by simpa using fun hc => hk.1 hc.symm)]
    exact ih hk.2

/-- With duplicate-free ledger keys (the Python dict invariant), the
per-tick pruning does not change any window's debounce verdict. -/
lemma recently_cleanup_eq (s : EngineState) (now : ℚ) (h : Nat)
    (hnd : (s.recently_moved.map Prod.fst).Nodup) :
    is_recently_moved (cleanup_old_entries s now) now h =
      is_recently_moved s now h := by
  simp only [is_recently_moved, cleanup_old_entries]
  cases hl : lookupLedger s.recently_moved h with
  | none =>
    have hk : h ∉ s.recently_moved.map Prod.fst := by
      intro hmem
      obtain ⟨p, hp, hph⟩ := List.mem_map.mp hmem
      have : (s.recently_moved.find? (fun q => q.1 == h)).isSome = true := by
        apply List.find?_isSome.mpr
        exact ⟨p, hp, by simpa using hph⟩
      rw [show s.recently_moved.find? (fun q => q.1 == h) = none from by
        simpa [lookupLedger] using hl] at this
      simp at this
    rw [lookupLedger_eq_none_of_not_key (by
      intro hmem
      obtain ⟨p, hp, hph⟩ := List.mem_map.mp hmem
      exact hk (List.mem_map.mpr ⟨p, List.mem_of_mem_filter hp, hph⟩))]
  | some ts =>
    by_cases hkeep : ts ≥ now - move_debounce_ms / 1000
    · rw [lookupLedger_filter_of_keep hl (by simpa using hkeep)]
    · -- the single entry for `h` is pruned: no entry remains
      push_neg at hkeep
      have hmem : (h, ts) ∈ s.recently_moved := by
        simp only [lookupLedger] at hl
        cases hf : s.recently_moved.find? (fun q => q.1 == h) with
        | none => rw [hf] at hl; simp at hl
        | some p =>
          rw [hf] at hl
          have hp1 : p.1 = h := by simpa using List.find?_some hf
          have hp2 : p.2 = ts := by simpa using hl
          have := List.mem_of_find?_eq_some hf
          rwa [show p = (h, ts) from by
            cases p with | mk a b => simp_all] at this
      have hnone : lookupLedger (s.recently_moved.filter
          (fun p => decide (p.2 ≥ now - move_debounce_ms / 1000))) h = none := by
        apply lookupLedger_eq_none_of_not_key
        intro hmemk
        obtain ⟨p, hp, hph⟩ := List.mem_map.mp hmemk
        have hpfilter := List.of_mem_filter hp
        have hpmem := List.mem_of_mem_filter hp
        -- nodup keys: p must be the (h, ts) entry, but that entry is stale
        have hph2 : p = (h, ts) :=
          List.inj_on_of_nodup_map hnd hpmem hmem (by simpa using hph)
        rw [hph2] at hpfilter
        simp only [decide_eq_true_eq] at hpfilter
        exact absurd hpfilter (by push_neg; exact hkeep)
      rw [hnone]
      have : ¬(now - ts < move_debounce_ms / 1000) := by linarith
      simp [this]

/-- The four engine fields the placement policy reads. -/
def policyOf (s : EngineState) :
    Bool × List String × List String × Option String :=
  (s.enabled, s.protected_device_names, s.whitelist, s.primary_device)

lemma should_move_window_policy_congr {s s' : EngineState}
    (monitors : List MonitorInfo) (env : WinEnv) (hwnd : Nat)
    (hp : policyOf s = policyOf s') :
    should_move_window s monitors env hwnd =
      should_move_window s' monitors env hwnd := by
  have h1 : s.enabled = s'.enabled := congrArg (fun p => p.1) hp
  have h2 : s.protected_device_names = s'.protected_device_names :=
    congrArg (fun p => p.2.1) hp
  have h3 : s.whitelist = s'.whitelist := congrArg (fun p => p.2.2.1) hp
  have h4 : s.primary_device = s'.primary_device :=
    congrArg (fun p => p.2.2.2) hp
  simp only [should_move_window, h1, h2, h3, h4]

lemma move_to_primary_eq_of_some {monitors : List MonitorInfo}
    {pm : MonitorInfo} (s : EngineState) (env : WinEnv) (hwnd : Nat) (now : ℚ)
    (hpm : get_primary_monitor monitors = some pm) :
    move_to_primary_monitor s monitors env hwnd now =
      ({ s with recently_moved := setLedger s.recently_moved hwnd now },
       some (computeMoveTarget pm (env hwnd).rect)) := by
  simp [move_to_primary_monitor, hpm]

lemma move_to_primary_eq_of_none {monitors : List MonitorInfo}
    (s : EngineState) (env : WinEnv) (hwnd : Nat) (now : ℚ)
    (hpm : get_primary_monitor monitors = none) :
    move_to_primary_monitor s monitors env hwnd now = (s, none) := by
  simp [move_to_primary_monitor, hpm]

lemma policyOf_move (s : EngineState) (monitors : List MonitorInfo)
    (env : WinEnv) (hwnd : Nat) (now : ℚ) :
    policyOf (move_to_primary_monitor s monitors env hwnd now).1 =
      policyOf s := by
  unfold move_to_primary_monitor
  cases get_primary_monitor monitors <;> rfl

lemma policyOf_recordMoveStats (s : EngineState) (env : WinEnv) (hwnd : Nat)
    (pname : Option String) :
    policyOf (recordMoveStats s env hwnd pname) = policyOf s := rfl

lemma policyOf_cleanup (s : EngineState) (now : ℚ) :
    policyOf (cleanup_old_entries s now) = policyOf s := rfl

lemma deferred_move (s : EngineState) (monitors : List MonitorInfo)
    (env : WinEnv) (hwnd : Nat) (now : ℚ) :
    (move_to_primary_monitor s monitors env hwnd now).1.deferred_hwnds =
      s.deferred_hwnds := by
  unfold move_to_primary_monitor
  cases get_primary_monitor monitors <;> rfl

lemma processDeferred_policy (monitors : List MonitorInfo) (env : WinEnv)
    (now : ℚ) (l : List Nat) :
    ∀ s, policyOf (processDeferred monitors env now s l).1 = policyOf s := by
  induction l with
  | nil => intro s; rfl
  | cons g rest ih =>
    intro s
    simp only [processDeferred]
    split
    · cases hmv : move_to_primary_monitor s monitors env g now with
      | mk s' res =>
        have hps' : policyOf s' = policyOf s := by
          have hpm := policyOf_move s monitors env g now
          rw [hmv] at hpm
          exact hpm
        cases res with
        | none =>
          dsimp only
          rw [ih s']
          exact hps'
        | some r =>
          dsimp only
          rw [ih (recordMoveStats s' env g (env g).processName),
            policyOf_recordMoveStats]
          exact hps'
    · exact ih s

lemma recordMoveStats_ledger (s : EngineState) (env : WinEnv) (hwnd : Nat)
    (pname : Option String) :
    (recordMoveStats s env hwnd pname).recently_moved = s.recently_moved := rfl

lemma recordMoveStats_deferred (s : EngineState) (env : WinEnv) (hwnd : Nat)
    (pname : Option String) :
    (recordMoveStats s env hwnd pname).deferred_hwnds = s.deferred_hwnds := rfl

lemma is_recently_moved_eq_true {s : EngineState} {now : ℚ} {h : Nat} :
    is_recently_moved s now h = true ↔
      ∃ ts, lookupLedger s.recently_moved h = some ts ∧
        now - ts < move_debounce_ms / 1000 := by
  unfold is_recently_moved
  cases lookupLedger s.recently_moved h <;> simp

lemma processDeferred_deferred (monitors : List MonitorInfo) (env : WinEnv)
    (now : ℚ) (l : List Nat) : ∀ s,
    (processDeferred monitors env now s l).1.deferred_hwnds =
      s.deferred_hwnds := by
  induction l with
  | nil => intro s; rfl
  | cons g rest ih =>
    intro s
    simp only [processDeferred]
    split
    · cases hmv : move_to_primary_monitor s monitors env g now with
      | mk s' res =>
        have hd : s'.deferred_hwnds = s.deferred_hwnds := by
          have hdm := deferred_move s monitors env g now
          rw [hmv] at hdm
          exact hdm
        cases res with
        | none => dsimp only; rw [ih s', hd]
        | some r => dsimp only; rw [ih _, recordMoveStats_deferred, hd]
    · exact ih s

lemma processDeferred_subset (monitors : List MonitorInfo) (env : WinEnv)
    (now : ℚ) (l : List Nat) : ∀ s h,
    h ∈ (processDeferred monitors env now s l).2 → h ∈ l := by
  induction l with
  | nil => intro s h hmem; simp [processDeferred] at hmem
  | cons g rest ih =>
    intro s h hmem
    simp only [processDeferred] at hmem
    split at hmem
    · cases hmv : move_to_primary_monitor s monitors env g now with
      | mk s' res =>
        rw [hmv] at hmem
        cases res with
        | none =>
          dsimp only at hmem
          exact List.mem_cons_of_mem _ (ih _ _ hmem)
        | some r =>
          dsimp only at hmem
          rcases List.mem_cons.mp hmem with hh | hh
          · exact hh ▸ List.mem_cons_self _ _
          · exact List.mem_cons_of_mem _ (ih _ _ hh)
    · exact List.mem_cons_of_mem _ (ih _ _ hmem)

lemma processDeferred_recent_invariant (monitors : List MonitorInfo)
    (env : WinEnv) (now : ℚ) (l : List Nat) : ∀ s h ts,
    lookupLedger s.recently_moved h = some ts →
    now - ts < move_debounce_ms / 1000 →
    h ∉ (processDeferred monitors env now s l).2 ∧
    lookupLedger (processDeferred monitors env now s l).1.recently_moved h =
      some ts := by
  induction l with
  | nil =>
    intro s h ts hl hlt
    exact ⟨by simp [processDeferred], hl⟩
  | cons g rest ih =>
    intro s h ts hl hlt
    by_cases hgh : g = h
    · subst hgh
      have hrec : is_recently_moved s now g = true :=
        is_recently_moved_eq_true.mpr ⟨ts, hl, hlt⟩
      have hcond : (is_valid_window env g &&
          !(is_recently_moved s now g)) = false := by simp [hrec]
      simp only [processDeferred, hcond, Bool.false_eq_true, if_false]
      exact ih s g ts hl hlt
    · simp only [processDeferred]
      split
      · cases hmv : move_to_primary_monitor s monitors env g now with
        | mk s' res =>
          have hls' : lookupLedger s'.recently_moved h = some ts := by
            cases hpm : get_primary_monitor monitors with
            | none =>
              rw [move_to_primary_eq_of_none s env g now hpm] at hmv
              cases hmv
              exact hl
            | some pm =>
              rw [move_to_primary_eq_of_some s env g now hpm] at hmv
              cases hmv
              simpa [lookupLedger_setLedger_ne _ now hgh] using hl
          cases res with
          | none =>
            dsimp only
            exact ih s' h ts hls' hlt
          | some r =>
            dsimp only
            have hih := ih (recordMoveStats s' env g (env g).processName) h ts
              (by rwa [recordMoveStats_ledger]) hlt
            refine ⟨?_, hih.2⟩
            simp only [List.mem_cons, not_or]
            exact ⟨fun hc => hgh hc.symm, hih.1⟩
      · exact ih s h ts hl hlt

lemma processDeferred_moved_ledger (monitors : List MonitorInfo)
    (env : WinEnv) (now : ℚ) (l : List Nat) : ∀ s h,
    h ∈ (processDeferred monitors env now s l).2 →
    lookupLedger (processDeferred monitors env now s l).1.recently_moved h =
      some now := by
  induction l with
  | nil => intro s h hmem; simp [processDeferred] at hmem
  | cons g rest ih =>
    intro s h hmem
    simp only [processDeferred] at hmem ⊢
    split at hmem <;> rename_i hcond
    · cases hmv : move_to_primary_monitor s monitors env g now with
      | mk s' res =>
        rw [hmv] at hmem
        rw [if_pos hcond]
        cases res with
        | none =>
          dsimp only at hmem ⊢
          exact ih _ _ hmem
        | some r =>
          dsimp only at hmem ⊢
          by_cases hrest : h ∈ (processDeferred monitors env now
              (recordMoveStats s' env g (env g).processName) rest).2
          · exact ih _ _ hrest
          · have hgh : g = h := by
              rcases List.mem_cons.mp hmem with hh | hh
              · exact hh.symm
              · exact absurd hh hrest
            subst hgh
            -- the move wrote the entry; the rest of the phase preserves it
            have hset : lookupLedger (recordMoveStats s' env g
                (env g).processName).recently_moved g = some now := by
              rw [recordMoveStats_ledger]
              cases hpm : get_primary_monitor monitors with
              | none =>
                rw [move_to_primary_eq_of_none s env g now hpm] at hmv
                simp at hmv
              | some pm =>
                rw [move_to_primary_eq_of_some s env g now hpm] at hmv
                cases hmv
                exact lookupLedger_setLedger_self _ _ _
            exact (processDeferred_recent_invariant monitors env now rest _ g
              now hset (by simpa using move_debounce_pos)).2
    · rw [if_neg hcond]
      exact ih _ _ hmem

lemma processDeferred_mem_iff (monitors : List MonitorInfo) (env : WinEnv)
    (now : ℚ) (l : List Nat) : ∀ s h,
    l.Nodup → (get_primary_monitor monitors).isSome = true → h ∈ l →
    (h ∈ (processDeferred monitors env now s l).2 ↔
      (is_valid_window env h = true ∧ is_recently_moved s now h = false)) := by
  induction l with
  | nil => intro s h _ _ hmem; simp at hmem
  | cons g rest ih =>
    intro s h hnd hpm hmem
    obtain ⟨pm, hpmeq⟩ := Option.isSome_iff_exists.mp hpm
    by_cases hgh : g = h
    · subst hgh
      by_cases hcond : (is_valid_window env g &&
          !(is_recently_moved s now g)) = true
      · simp only [processDeferred, if_pos hcond,
          move_to_primary_eq_of_some s env g now hpmeq]
        simp only [List.mem_cons, true_or, true_iff]
        simpa [Bool.and_eq_true] using hcond
      · simp only [processDeferred, hcond, Bool.false_eq_true, if_false]
        constructor
        · intro hmv
          exact absurd (processDeferred_subset monitors env now rest s g hmv)
            (by simpa using (List.nodup_cons.mp hnd).1)
        · intro hval
          exact absurd (by simp [hval.1, hval.2]) hcond
    · have hmem' : h ∈ rest := by
        rcases List.mem_cons.mp hmem with hh | hh
        · exact absurd hh.symm hgh
        · exact hh
      have hnd' := (List.nodup_cons.mp hnd).2
      simp only [processDeferred]
      split
      · rw [move_to_primary_eq_of_some s env g now hpmeq]
        dsimp only
        have hled : (recordMoveStats
            { s with recently_moved := setLedger s.recently_moved g now }
            env g (env g).processName).recently_moved =
              setLedger s.recently_moved g now := rfl
        have hrec_eq : is_recently_moved (recordMoveStats
            { s with recently_moved := setLedger s.recently_moved g now }
            env g (env g).processName) now h = is_recently_moved s now h := by
          simp only [is_recently_moved, hled,
            lookupLedger_setLedger_ne _ now hgh]
        rw [List.mem_cons]
        constructor
        · intro hor
          rcases hor with hh | hh
          · exact absurd hh.symm hgh
          · have := (ih _ h hnd' hpm hmem').mp hh
            rwa [hrec_eq] at this
        · intro hval
          right
          exact (ih _ h hnd' hpm hmem').mpr (by rwa [hrec_eq])
      · exact ih s h hnd' hpm hmem'

lemma mem_addDeferred_self (l : List Nat) (h : Nat) : h ∈ addDeferred l h := by
  unfold addDeferred
  split
  · assumption
  · simp

lemma mem_addDeferred_of_mem {l : List Nat} {h : Nat} (g : Nat)
    (hm : h ∈ l) : h ∈ addDeferred l g := by
  unfold addDeferred
  split
  · exact hm
  · simp [hm]

lemma enumPhase_recent_invariant (monitors : List MonitorInfo) (env : WinEnv)
    (now : ℚ) (dragging : Bool) (l : List Nat) : ∀ s h ts,
    lookupLedger s.recently_moved h = some ts →
    now - ts < move_debounce_ms / 1000 →
    h ∉ (enumPhase monitors env now dragging s l).2 ∧
    lookupLedger
      (enumPhase monitors env now dragging s l).1.recently_moved h =
      some ts := by
  induction l with
  | nil =>
    intro s h ts hl hlt
    exact ⟨by simp [enumPhase], hl⟩
  | cons g rest ih =>
    intro s h ts hl hlt
    by_cases hgh : g = h
    · subst hgh
      cases hval : is_valid_window env g with
      | false =>
        simp only [enumPhase, hval, Bool.not_false, if_true]
        exact ih s g ts hl hlt
      | true =>
        have hrec : is_recently_moved s now g = true :=
          is_recently_moved_eq_true.mpr ⟨ts, hl, hlt⟩
        simp only [enumPhase, hval, Bool.not_true, Bool.false_eq_true,
          if_false, hrec, if_true]
        exact ih s g ts hl hlt
    · simp only [enumPhase]
      split
      · exact ih s h ts hl hlt
      · split
        · exact ih s h ts hl hlt
        · split
          · split
            · exact ih
                { s with deferred_hwnds := addDeferred s.deferred_hwnds g }
                h ts hl hlt
            · cases hmv : move_to_primary_monitor s monitors env g now with
              | mk s' res =>
                have hls' : lookupLedger s'.recently_moved h = some ts := by
                  cases hpm : get_primary_monitor monitors with
                  | none =>
                    rw [move_to_primary_eq_of_none s env g now hpm] at hmv
                    cases hmv
                    exact hl
                  | some pm =>
                    rw [move_to_primary_eq_of_some s env g now hpm] at hmv
                    cases hmv
                    simpa [lookupLedger_setLedger_ne _ now hgh] using hl
                cases res with
                | none =>
                  dsimp only
                  exact ih s' h ts hls' hlt
                | some r =>
                  dsimp only
                  have hih := ih (recordMoveStats s' env g
                    (should_move_window s monitors env g).2) h ts
                    (by rwa [recordMoveStats_ledger]) hlt
                  refine ⟨?_, hih.2⟩
                  simp only [List.mem_cons, not_or]
                  exact ⟨fun hc => hgh hc.symm, hih.1⟩
          · exact ih s h ts hl hlt

lemma enumPhase_moved_ledger (monitors : List MonitorInfo) (env : WinEnv)
    (now : ℚ) (dragging : Bool) (l : List Nat) : ∀ s h,
    h ∈ (enumPhase monitors env now dragging s l).2 →
    lookupLedger
      (enumPhase monitors env now dragging s l).1.recently_moved h =
      some now := by
  induction l with
  | nil => intro s h hmem; simp [enumPhase] at hmem
  | cons g rest ih =>
    intro s h hmem
    simp only [enumPhase] at hmem ⊢
    split at hmem <;> rename_i h1
    · rw [if_pos h1]
      exact ih s h hmem
    · rw [if_neg h1]
      split at hmem <;> rename_i h2
      · rw [if_pos h2]
        exact ih s h hmem
      · rw [if_neg h2]
        split at hmem <;> rename_i h3
        · rw [if_pos h3]
          split at hmem <;> rename_i h4
          · rw [if_pos h4]
            exact ih _ h hmem
          · rw [if_neg h4]
            cases hmv : move_to_primary_monitor s monitors env g now with
            | mk s' res =>
              rw [hmv] at hmem
              cases res with
              | none =>
                dsimp only at hmem ⊢
                exact ih s' h hmem
              | some r =>
                dsimp only at hmem ⊢
                by_cases hrest : h ∈ (enumPhase monitors env now dragging
                    (recordMoveStats s' env g
                      (should_move_window s monitors env g).2) rest).2
                · exact ih _ h hrest
                · have hgh : g = h := by
                    rcases List.mem_cons.mp hmem with hh | hh
                    · exact hh.symm
                    · exact absurd hh hrest
                  subst hgh
                  have hset : lookupLedger (recordMoveStats s' env g
                      (should_move_window s monitors env g).2).recently_moved
                        g = some now := by
                    rw [recordMoveStats_ledger]
                    cases hpm : get_primary_monitor monitors with
                    | none =>
                      rw [move_to_primary_eq_of_none s env g now hpm] at hmv
                      simp at hmv
                    | some pm =>
                      rw [move_to_primary_eq_of_some s env g now hpm] at hmv
                      cases hmv
                      exact lookupLedger_setLedger_self _ _ _
                  exact (enumPhase_recent_invariant monitors env now dragging
                    rest _ g now hset (by simpa using move_debounce_pos)).2
        · rw [if_neg h3]
          exact ih s h hmem

lemma enumPhase_invalid_not_moved (monitors : List MonitorInfo)
    (env : WinEnv) (now : ℚ) (dragging : Bool) (l : List Nat) : ∀ s h,
    is_valid_window env h = false →
    h ∉ (enumPhase monitors env now dragging s l).2 := by
  induction l with
  | nil => intro s h _; simp [enumPhase]
  | cons g rest ih =>
    intro s h hinv
    by_cases hgh : g = h
    · subst hgh
      simp only [enumPhase, hinv, Bool.not_false, if_true]
      exact ih s g hinv
    · simp only [enumPhase]
      split
      · exact ih s h hinv
      · split
        · exact ih s h hinv
        · split
          · split
            · exact ih _ h hinv
            · cases hmv : move_to_primary_monitor s monitors env g now with
              | mk s' res =>
                cases res with
                | none =>
                  dsimp only
                  exact ih s' h hinv
                | some r =>
                  dsimp only
                  simp only [List.mem_cons, not_or]
                  exact ⟨fun hc => hgh hc.symm, ih _ h hinv⟩
          · exact ih s h hinv

lemma enumPhase_drag_moved_nil (monitors : List MonitorInfo) (env : WinEnv)
    (now : ℚ) (l : List Nat) : ∀ s,
    (enumPhase monitors env now true s l).2 = [] := by
  induction l with
  | nil => intro s; rfl
  | cons g rest ih =>
    intro s
    simp only [enumPhase]
    split
    · exact ih s
    · split
      · exact ih s
      · split
        · exact ih _
        · exact ih s

lemma enumPhase_drag_deferred_grows (monitors : List MonitorInfo)
    (env : WinEnv) (now : ℚ) (l : List Nat) : ∀ s h,
    h ∈ s.deferred_hwnds →
    h ∈ (enumPhase monitors env now true s l).1.deferred_hwnds := by
  induction l with
  | nil => intro s h hm; exact hm
  | cons g rest ih =>
    intro s h hm
    simp only [enumPhase]
    split
    · exact ih s h hm
    · split
      · exact ih s h hm
      · split
        · exact ih _ h (mem_addDeferred_of_mem g hm)
        · exact ih s h hm

lemma enumPhase_drag_defer_mem (monitors : List MonitorInfo) (env : WinEnv)
    (now : ℚ) (l : List Nat) : ∀ s h,
    h ∈ l → is_valid_window env h = true →
    is_recently_moved s now h = false →
    (should_move_window s monitors env h).1 = true →
    h ∈ (enumPhase monitors env now true s l).1.deferred_hwnds := by
  induction l with
  | nil => intro s h hmem; simp at hmem
  | cons g rest ih =>
    intro s h hmem hval hrec hsh
    by_cases hgh : g = h
    · subst hgh
      simp only [enumPhase, hval, Bool.not_true, Bool.false_eq_true, if_false,
        hrec, hsh, if_true]
      exact enumPhase_drag_deferred_grows monitors env now rest _ g
        (mem_addDeferred_self _ _)
    · have hmem' : h ∈ rest := by
        rcases List.mem_cons.mp hmem with hh | hh
        · exact absurd hh.symm hgh
        · exact hh
      simp only [enumPhase]
      split
      · exact ih s h hmem' hval hrec hsh
      · split
        · exact ih s h hmem' hval hrec hsh
        · split
          · exact ih { s with deferred_hwnds := addDeferred s.deferred_hwnds g }
              h hmem' hval hrec hsh
          · exact ih s h hmem' hval hrec hsh

lemma enumPhase_nodrag_deferred (monitors : List MonitorInfo) (env : WinEnv)
    (now : ℚ) (l : List Nat) : ∀ s,
    (enumPhase monitors env now false s l).1.deferred_hwnds =
      s.deferred_hwnds := by
  induction l with
  | nil => intro s; rfl
  | cons g rest ih =>
    intro s
    simp only [enumPhase]
    split
    · exact ih s
    · split
      · exact ih s
      · split
        · split
          · simp at *
          · cases hmv : move_to_primary_monitor s monitors env g now with
            | mk s' res =>
              have hd : s'.deferred_hwnds = s.deferred_hwnds := by
                have hdm := deferred_move s monitors env g now
                rw [hmv] at hdm
                exact hdm
              cases res with
              | none =>
                dsimp only
                rw [ih s', hd]
              | some r =>
                dsimp only
                rw [ih _, recordMoveStats_deferred, hd]
        · exact ih s

/-! ## Tick-level lemmas -/

lemma check_moved_ledger (s : EngineState) (t : TickIn) (h : Nat)
    (hmem : h ∈ (check_and_enforce s t).2) :
    lookupLedger (check_and_enforce s t).1.recently_moved h = some t.now := by
  simp only [check_and_enforce] at hmem ⊢
  split at hmem <;> rename_i h1
  · simp at hmem
  · rw [if_neg h1]
    split at hmem <;> rename_i h2
    · simp at hmem
    · rw [if_neg h2]
      by_cases hguard : ((cleanup_old_entries s t.now).was_dragging &&
          !t.dragging) = true
      · rw [if_pos hguard] at hmem ⊢
        rcases List.mem_append.mp hmem with hh | hh
        · -- moved by the drag-end deferred block
          have hled := processDeferred_moved_ledger t.monitors t.env t.now
            (cleanup_old_entries s t.now).deferred_hwnds
            { cleanup_old_entries s t.now with deferred_hwnds := [] } h hh
          exact (enumPhase_recent_invariant t.monitors t.env t.now t.dragging
            t.hwnds
            { (processDeferred t.monitors t.env t.now
                { cleanup_old_entries s t.now with deferred_hwnds := [] }
                (cleanup_old_entries s t.now).deferred_hwnds).1 with
              was_dragging := t.dragging } h t.now hled
            (by simpa using move_debounce_pos)).2
        · exact enumPhase_moved_ledger t.monitors t.env t.now t.dragging
            t.hwnds _ h hh
      · rw [if_neg hguard] at hmem ⊢
        simp only [List.nil_append] at hmem
        exact enumPhase_moved_ledger t.monitors t.env t.now t.dragging
          t.hwnds _ h hmem

lemma check_recent_invariant (s : EngineState) (t : TickIn) (h : Nat) (ts : ℚ)
    (hl : lookupLedger s.recently_moved h = some ts)
    (hlt : t.now - ts < move_debounce_ms / 1000) :
    h ∉ (check_and_enforce s t).2 ∧
    lookupLedger (check_and_enforce s t).1.recently_moved h = some ts := by
  simp only [check_and_enforce]
  split
  · exact ⟨by simp, hl⟩
  · split
    · exact ⟨by simp, hl⟩
    · have hl1 : lookupLedger
          (cleanup_old_entries s t.now).recently_moved h = some ts := by
        unfold cleanup_old_entries
        exact lookupLedger_filter_of_keep hl
          (by simp only [decide_eq_true_eq]; linarith)
      by_cases hguard : ((cleanup_old_entries s t.now).was_dragging &&
          !t.dragging) = true
      · rw [if_pos hguard]
        have hD := processDeferred_recent_invariant t.monitors t.env t.now
          (cleanup_old_entries s t.now).deferred_hwnds
          { cleanup_old_entries s t.now with deferred_hwnds := [] } h ts
          hl1 hlt
        have hE := enumPhase_recent_invariant t.monitors t.env t.now
          t.dragging t.hwnds
          { (processDeferred t.monitors t.env t.now
              { cleanup_old_entries s t.now with deferred_hwnds := [] }
              (cleanup_old_entries s t.now).deferred_hwnds).1 with
            was_dragging := t.dragging } h ts hD.2 hlt
        refine ⟨?_, hE.2⟩
        simp only [List.mem_append, not_or]
        exact ⟨hD.1, hE.1⟩
      · rw [if_neg hguard]
        have hE := enumPhase_recent_invariant t.monitors t.env t.now
          t.dragging t.hwnds
          { cleanup_old_entries s t.now with was_dragging := t.dragging }
          h ts hl1 hlt
        refine ⟨?_, hE.2⟩
        simp only [List.nil_append]
        exact hE.1

lemma runTicks_not_moved (L : List TickIn) : ∀ (s : EngineState) (h : Nat)
    (ts : ℚ), lookupLedger s.recently_moved h = some ts →
    (∀ u ∈ L, u.now - ts < move_debounce_ms / 1000) →
    h ∉ (runTicks s L).2 := by
  induction L with
  | nil => intro s h ts _ _; simp [runTicks]
  | cons u rest ih =>
    intro s h ts hl hall
    simp only [runTicks, List.mem_append, not_or]
    have hT := check_recent_invariant s u h ts hl (hall u (by simp))
    exact ⟨hT.1, ih _ h ts hT.2 (fun v hv => hall v (by simp [hv]))⟩

/-! ## C4: debounce -/

/-- C4: if a window (identified by its handle) is successfully moved by
the tick at time `t.now`, then no subsequent tick occurring before
`t.now + debounce_ms` moves that window again, even if it is
re-enumerated and still violating: the move wrote the debounce ledger,
every later tick within the window skips the handle in both the
drag-end block and the enumeration pass, and pruning never discards the
still-fresh entry. -/
theorem C4_debounce (s : EngineState) (t : TickIn) (ticks : List TickIn)
    (h : Nat) (hmv : h ∈ (check_and_enforce s t).2)
    (hts : ∀ u ∈ ticks, u.now < t.now + move_debounce_ms / 1000) :
    h ∉ (runTicks (check_and_enforce s t).1 ticks).2 := by
  have hled := check_moved_ledger s t h hmv
  exact runTicks_not_moved ticks _ h t.now hled
    (fun u hu => by have := hts u hu; linarith)

/-- Witness for C4: window `1` (NOTEPAD.EXE on the protected monitor) is
moved by the tick at `t = 10`; the follow-up tick at `10.3 < 10.5`
re-enumerates it but does not move it. -/
theorem C4_witness :
    1 ∈ (check_and_enforce baseState
      ⟨10, false, [1],
       constEnv ⟨true, "w", "C", some "NOTEPAD.EXE", ⟨2400, 200, 3360, 880⟩⟩,
       [monD1, monD2]⟩).2 ∧
    1 ∉ (runTicks (check_and_enforce baseState
      ⟨10, false, [1],
       constEnv ⟨true, "w", "C", some "NOTEPAD.EXE", ⟨2400, 200, 3360, 880⟩⟩,
       [monD1, monD2]⟩).1
      [⟨10.3, false, [1],
        constEnv ⟨true, "w", "C", some "NOTEPAD.EXE", ⟨2400, 200, 3360, 880⟩⟩,
        [monD1, monD2]⟩]).2 :=
  ⟨by decide,
   C4_debounce _ _ _ 1 (by decide) (by
     intro u hu
     simp only [List.mem_singleton] at hu
     subst hu
     norm_num [move_debounce_ms])⟩

/-! ## C2: drag deferral and drag-end processing -/

/-- C2 (amended): while the drag state is DRAGGING, a tick moves no
window at all, and every window it finds violating (valid, outside its
debounce window, flagged by the placement policy) is added to the
DeferredSet. On the first tick after the drag state transitions from
DRAGGING to NOT_DRAGGING (engine enabled, projectors present, a primary
monitor available), exactly the DeferredSet members that are still valid
windows and outside their debounce window are moved — whether or not
they still violate the placement policy, which the drag-end block does
NOT re-evaluate (see `C2_counterexample`) — and all deferred members are
removed from the set. -/
theorem C2_drag_deferral :
    (∀ (s : EngineState) (t : TickIn), t.dragging = true →
       (check_and_enforce s t).2 = [] ∧
       (s.enabled = true → has_projectors t.monitors = true →
        (s.recently_moved.map Prod.fst).Nodup →
        ∀ h ∈ t.hwnds, is_valid_window t.env h = true →
          is_recently_moved s t.now h = false →
          (should_move_window s t.monitors t.env h).1 = true →
          h ∈ (check_and_enforce s t).1.deferred_hwnds)) ∧
    (∀ (s : EngineState) (t : TickIn),
       t.dragging = false → s.was_dragging = true → s.enabled = true →
       has_projectors t.monitors = true →
       (get_primary_monitor t.monitors).isSome = true →
       s.deferred_hwnds.Nodup →
       (s.recently_moved.map Prod.fst).Nodup →
       (check_and_enforce s t).1.deferred_hwnds = [] ∧
       ∀ h ∈ s.deferred_hwnds,
         (h ∈ (check_and_enforce s t).2 ↔
          (is_valid_window t.env h = true ∧
           is_recently_moved s t.now h = false))) := by
  constructor
  · -- dragging tick: nothing moves, violators are deferred
    intro s t htd
    constructor
    · simp only [check_and_enforce]
      split
      · rfl
      · split
        · rfl
        · have hguard : ((cleanup_old_entries s t.now).was_dragging &&
              !t.dragging) = false := by simp [htd]
          rw [hguard]
          simp only [Bool.false_eq_true, if_false, List.nil_append, htd]
          exact enumPhase_drag_moved_nil t.monitors t.env t.now t.hwnds _
    · intro hen hproj hndl h hmem hval hrec hsh
      simp only [check_and_enforce, hen, Bool.not_true, Bool.false_eq_true,
        if_false, hproj, Bool.not_true, Bool.false_eq_true, if_false]
      have hguard : ((cleanup_old_entries s t.now).was_dragging &&
          !t.dragging) = false := by simp [htd]
      rw [hguard]
      simp only [Bool.false_eq_true, if_false, htd]
      apply enumPhase_drag_defer_mem t.monitors t.env t.now t.hwnds
        { cleanup_old_entries s t.now with was_dragging := true }
        h hmem hval
      · have hceq := recently_cleanup_eq s t.now h hndl
        have hstep : is_recently_moved
            { cleanup_old_entries s t.now with was_dragging := true }
            t.now h = is_recently_moved (cleanup_old_entries s t.now)
            t.now h := rfl
        rw [hstep, hceq]
        exact hrec
      · have hpcongr := @should_move_window_policy_congr
          { cleanup_old_entries s t.now with was_dragging := true } s
          t.monitors t.env h rfl
        rw [hpcongr]
        exact hsh
  · -- drag-end tick
    intro s t htd hwd hen hproj hpm hndd hndl
    have hguard : ((cleanup_old_entries s t.now).was_dragging &&
        !t.dragging) = true := by
      simp only [cleanup_old_entries]
      simp [hwd, htd]
    simp only [check_and_enforce, hen, Bool.not_true, Bool.false_eq_true,
      if_false, hproj, Bool.not_true, Bool.false_eq_true, if_false]
    rw [hguard]
    simp only [if_true, htd]
    constructor
    · -- the deferred set is emptied
      rw [enumPhase_nodrag_deferred]
      have hpd := processDeferred_deferred t.monitors t.env t.now
        (cleanup_old_entries s t.now).deferred_hwnds
        { cleanup_old_entries s t.now with deferred_hwnds := [] }
      exact hpd
    · intro h hmem
      -- the deferred list of the cleaned state is the original one
      have hmem1 : h ∈ (cleanup_old_entries s t.now).deferred_hwnds := hmem
      have hiff := processDeferred_mem_iff t.monitors t.env t.now
        (cleanup_old_entries s t.now).deferred_hwnds
        { cleanup_old_entries s t.now with deferred_hwnds := [] } h
        hndd hpm hmem1
      have hrec_eq : is_recently_moved
          ({ cleanup_old_entries s t.now with deferred_hwnds := [] })
          t.now h = is_recently_moved s t.now h := by
        have hstep : is_recently_moved
            { cleanup_old_entries s t.now with deferred_hwnds := [] }
            t.now h = is_recently_moved (cleanup_old_entries s t.now)
            t.now h := rfl
        rw [hstep]
        exact recently_cleanup_eq s t.now h hndl
      rw [hrec_eq] at hiff
      -- a deferred member is never moved by the enumeration pass of this tick
      have hnotenum : h ∉ (enumPhase t.monitors t.env t.now false
          { (processDeferred t.monitors t.env t.now
              { cleanup_old_entries s t.now with deferred_hwnds := [] }
              (cleanup_old_entries s t.now).deferred_hwnds).1 with
            was_dragging := false } t.hwnds).2 := by
        by_cases hval : is_valid_window t.env h = true
        · by_cases hrec : is_recently_moved s t.now h = false
          · -- moved by the deferred block, hence debounced for the pass
            have hinD : h ∈ (processDeferred t.monitors t.env t.now
                { cleanup_old_entries s t.now with deferred_hwnds := [] }
                (cleanup_old_entries s t.now).deferred_hwnds).2 :=
              hiff.mpr ⟨hval, hrec⟩
            have hled := processDeferred_moved_ledger t.monitors t.env t.now
              (cleanup_old_entries s t.now).deferred_hwnds
              { cleanup_old_entries s t.now with deferred_hwnds := [] } h hinD
            exact (enumPhase_recent_invariant t.monitors t.env t.now false
              t.hwnds
              { (processDeferred t.monitors t.env t.now
                  { cleanup_old_entries s t.now with deferred_hwnds := [] }
                  (cleanup_old_entries s t.now).deferred_hwnds).1 with
                was_dragging := false } h t.now hled
              (by simpa using move_debounce_pos)).1
          · -- still debounced from an earlier move
            rw [Bool.not_eq_false] at hrec
            obtain ⟨ts, hts, hlt⟩ := is_recently_moved_eq_true.mp hrec
            have hl1 : lookupLedger
                (cleanup_old_entries s t.now).recently_moved h = some ts := by
              unfold cleanup_old_entries
              exact lookupLedger_filter_of_keep hts
                (by simp only [decide_eq_true_eq]; linarith)
            have hD := processDeferred_recent_invariant t.monitors t.env t.now
              (cleanup_old_entries s t.now).deferred_hwnds
              { cleanup_old_entries s t.now with deferred_hwnds := [] } h ts
              hl1 hlt
            exact (enumPhase_recent_invariant t.monitors t.env t.now false
              t.hwnds
              { (processDeferred t.monitors t.env t.now
                  { cleanup_old_entries s t.now with deferred_hwnds := [] }
                  (cleanup_old_entries s t.now).deferred_hwnds).1 with
                was_dragging := false } h ts hD.2 hlt).1
        · exact enumPhase_invalid_not_moved t.monitors t.env t.now false
            t.hwnds _ h (by simpa using hval)
      constructor
      · intro hmv
        rcases List.mem_append.mp hmv with hh | hh
        · exact hiff.mp hh
        · exact absurd hh hnotenum
      · intro hval
        exact List.mem_append.mpr (Or.inl (hiff.mpr hval))

/-- C2 counterexample: window `7` was deferred during a drag but has
meanwhile stopped violating the placement policy (its center sits on the
unprotected primary monitor and its process resolves). On the drag-end
tick it is STILL moved: the drag-end block checks only validity and
debounce, not the placement policy, refuting the claim that exactly the
still-violating deferred members are moved. -/
theorem C2_counterexample :
    7 ∈ (check_and_enforce
      { baseState with was_dragging := true, deferred_hwnds := [7] }
      ⟨10, false, [],
       constEnv ⟨true, "calc", "C", some "CALC.EXE", ⟨100, 100, 300, 300⟩⟩,
       [monD1, monD2]⟩).2 ∧
    (should_move_window
      { baseState with was_dragging := true, deferred_hwnds := [7] }
      [monD1, monD2]
      (constEnv ⟨true, "calc", "C", some "CALC.EXE", ⟨100, 100, 300, 300⟩⟩)
      7).1 = false := by
  refine ⟨by decide, by decide⟩

/-- Witness for C2: both theorem parts applied at concrete ticks — a
dragging tick moves nothing, and the drag-end tick empties the deferred
set and moves deferred window `7` (valid, not debounced). -/
theorem C2_witness :
    (check_and_enforce
      { baseState with was_dragging := true, deferred_hwnds := [7] }
      ⟨10, true, [7],
       constEnv ⟨true, "calc", "C", some "CALC.EXE", ⟨100, 100, 300, 300⟩⟩,
       [monD1, monD2]⟩).2 = [] ∧
    (check_and_enforce
      { baseState with was_dragging := true, deferred_hwnds := [7] }
      ⟨10, false, [],
       constEnv ⟨true, "calc", "C", some "CALC.EXE", ⟨100, 100, 300, 300⟩⟩,
       [monD1, monD2]⟩).1.deferred_hwnds = [] ∧
    (7 ∈ (check_and_enforce
      { baseState with was_dragging := true, deferred_hwnds := [7] }
      ⟨10, false, [],
       constEnv ⟨true, "calc", "C", some "CALC.EXE", ⟨100, 100, 300, 300⟩⟩,
       [monD1, monD2]⟩).2 ↔
      (is_valid_window
        (constEnv ⟨true, "calc", "C", some "CALC.EXE", ⟨100, 100, 300, 300⟩⟩)
        7 = true ∧
       is_recently_moved
        { baseState with was_dragging := true, deferred_hwnds := [7] }
        10 7 = false)) := by
  refine ⟨(C2_drag_deferral.1 _ _ rfl).1, ?_, ?_⟩
  · exact (C2_drag_deferral.2 _ _ rfl rfl rfl (by decide) (by decide)
      (by decide) (by decide)).1
  · exact (C2_drag_deferral.2 _ _ rfl rfl rfl (by decide) (by decide)
      (by decide) (by decide)).2 7 (by decide)

end NoSecond
